import Mathlib

/-!
The container `phi::SparseCsrTensor`.

A shallow embedding of `paddle/phi/core/sparse_csr_tensor.cc` and the properties
of its operations.

Member functions mutate `*this` and may throw. A member function is embedded as a
function from the object's state before the call to an `Outcome`: the exception
that left the function (if any) together with the state of the object at that
moment. A constructor that throws leaves no object behind, so constructors return
`Except Error SparseCsrTensor`.
-/

namespace phi

/-! ## Collaborators declared outside `sparse_csr_tensor.cc` -/

/-- The error kinds the source raises; `common::errors::InvalidArgument` is the only one. -/
inductive Error where
  | InvalidArgument
deriving DecidableEq, Repr

/-- Modelled from the spec: element type tags of a buffer (`DataType`), declared outside the
source file. Only the identity of a tag matters to the container. -/
inductive DataType where
  | UNDEFINED
  | BOOL
  | INT32
  | INT64
  | FLOAT32
  | FLOAT64
deriving DecidableEq, Repr

/-- Modelled from the spec: layout tags (`DataLayout`), declared outside the source file. The
source names `DataLayout::NCHW`, the default dense-equivalent tag. -/
inductive DataLayout where
  | UNDEFINED
  | NHWC
  | NCHW
  | SPARSE_COO
  | SPARSE_CSR
deriving DecidableEq, Repr

/-- Modelled from the spec: the placement identity of a buffer, equality-comparable. -/
inductive Place where
  | CPU
  | GPU (device : Nat)
deriving DecidableEq, Repr

/-- An ordered sequence of int64 extents; `dims.size()` is the length of the list. -/
abbrev DDim := List Int

/-- The value of an int64 expression: the mathematical result reduced to the signed 64-bit range. -/
def wrap_int64 (x : Int) : Int := (x + 2 ^ 63) % 2 ^ 64 - 2 ^ 63

/-- The value of an int32 expression: the mathematical result reduced to the signed 32-bit range. -/
def wrap_int32 (x : Int) : Int := (x + 2 ^ 31) % 2 ^ 32 - 2 ^ 31

/-- Modelled from the spec: `common::make_ddim` on a one-element initializer list, the shape of
a 1-D buffer of the given length. -/
def make_ddim (n : Int) : DDim := [n]

/-- Modelled from the spec: the dense buffer (`DenseTensor`) each component array delegates to,
seen through its interface `initialized()`, `place()`, `dims()`, `dtype()`, `Resize`. The
`holder` is the handle of the shared storage, absent while nothing is allocated. A
default-constructed buffer has no storage. -/
structure DenseTensor where
  holder : Option Nat := none
  place : Place := Place.CPU
  dims : DDim := [0]
  dtype : DataType := DataType.UNDEFINED
deriving DecidableEq, Repr

/-- Modelled from the spec: `buffer.initialized()`, whether the buffer has allocated storage. -/
def DenseTensor.initialized (t : DenseTensor) : Bool := t.holder.isSome

/-- Modelled from the spec: `buffer.Resize(newShape)` reshapes the buffer; storage, placement and
element type are kept. -/
def DenseTensor.Resize (t : DenseTensor) (dims : DDim) : DenseTensor :=
  { t with dims := dims }

/-- Modelled from the spec: the metadata record `SparseTensorMeta`, declared in a header outside
the sources: logical shape, element type and layout. A default record has an empty shape, no
element type and the default dense-equivalent layout. -/
structure SparseTensorMeta where
  dims : DDim := []
  dtype : DataType := DataType.UNDEFINED
  layout : DataLayout := DataLayout.NCHW
deriving DecidableEq, Repr

/-- The data members of `SparseCsrTensor` that the source file reads and writes. -/
structure SparseCsrTensor where
  non_zero_crows_ : DenseTensor := {}
  non_zero_cols_ : DenseTensor := {}
  non_zero_elements_ : DenseTensor := {}
  meta_ : SparseTensorMeta := {}
deriving DecidableEq, Repr

/-- The default constructor `SparseCsrTensor::SparseCsrTensor()`: three default buffers and a default metadata record. -/
def SparseCsrTensor.empty : SparseCsrTensor :=
  let crows : DenseTensor := {}
  let cols : DenseTensor := {}
  let values : DenseTensor := {}
  { non_zero_crows_ := crows, non_zero_cols_ := cols, non_zero_elements_ := values }

/-- Modelled from the spec: the two predicates that `sparse_csr_tensor.cc` calls and that are
declared in headers outside the sources, `SparseTensorMeta::valid()` and
`SparseCsrTensor::initialized()`. Each is a function of the record, resp. of the container. The
spec fixes that a default-constructed container is uninitialized and carries invalid metadata. -/
structure Header where
  valid : SparseTensorMeta → Bool
  initialized : SparseCsrTensor → Bool
  default_invalid : valid {} = false
  default_uninitialized : initialized SparseCsrTensor.empty = false

/-- An instance of the header predicates, used to evaluate the operations at concrete inputs:
a metadata record counts as valid when both its dtype and its layout are defined, a container
as initialized when its `values` buffer has allocated storage. The spec fixes only the two
facts recorded in `Header`; this instance is one choice among the predicates they admit, and
what is proved for every `Header` does not depend on it. -/
def sparse_csr_tensor_h : Header where
  valid := fun m => m.dtype != DataType.UNDEFINED && m.layout != DataLayout.UNDEFINED
  initialized := fun t => t.non_zero_elements_.initialized
  default_invalid := rfl
  default_uninitialized := rfl

/-- Another instance of the header predicates that meets the two facts recorded in `Header`: a
metadata record counts as valid when its shape has rank 2 or 3. -/
def shape_valid_h : Header where
  valid := fun m => m.dims.length == 2 || m.dims.length == 3
  initialized := fun t => t.non_zero_elements_.initialized
  default_invalid := rfl
  default_uninitialized := rfl

/-- What a call of a member function leaves behind: the exception thrown (`none` when the call
returned normally) and the state of the object when control left the function. -/
structure Outcome where
  thrown : Option Error
  self : SparseCsrTensor
deriving DecidableEq, Repr

/-- Modelled from the spec: `PADDLE_ENFORCE_EQ(a, b, err)` raises `err` unless `a == b`. -/
def PADDLE_ENFORCE_EQ {α : Type} [DecidableEq α] (a b : α) (err : Error) : Except Error Unit :=
  if a = b then Except.ok () else Except.error err

/-! ## `sparse_csr_tensor.cc` -/

/-- The function `check_shape(dims)`: the logical rank must be 2 or 3. -/
def check_shape (dims : DDim) : Except Error Unit :=
  let valid : Bool := dims.length == 2 || dims.length == 3
  PADDLE_ENFORCE_EQ valid true Error.InvalidArgument

/-- The block `Check(non_zero_crows, non_zero_cols, non_zero_elements, dims)`: the shape check
followed by the two placement comparisons. -/
def Check (non_zero_crows non_zero_cols non_zero_elements : DenseTensor) (dims : DDim) :
    Except Error Unit := do
  check_shape dims
  PADDLE_ENFORCE_EQ non_zero_cols.place non_zero_crows.place Error.InvalidArgument
  PADDLE_ENFORCE_EQ non_zero_cols.place non_zero_elements.place Error.InvalidArgument

namespace SparseCsrTensor

/-- The constructor `SparseCsrTensor(non_zero_crows, non_zero_cols, non_zero_elements, dims)`:
the member initializers store the three buffers, the body validates and then fills the
metadata. -/
def construct (non_zero_crows non_zero_cols non_zero_elements : DenseTensor) (dims : DDim) :
    Except Error SparseCsrTensor :=
  let self : SparseCsrTensor :=
    { non_zero_crows_ := non_zero_crows
      non_zero_cols_ := non_zero_cols
      non_zero_elements_ := non_zero_elements }
  let checked : Except Error Unit :=
    if non_zero_crows.initialized then
      Check self.non_zero_crows_ self.non_zero_cols_ self.non_zero_elements_ dims
    else
      check_shape dims
  match checked with
  | Except.error e => Except.error e
  | Except.ok _ =>
    let self := { self with meta_ := { self.meta_ with dims := dims } }
    let self := { self with meta_ := { self.meta_ with layout := DataLayout.NCHW } }
    let self := { self with meta_ := { self.meta_ with dtype := non_zero_elements.dtype } }
    Except.ok self

/-- The copy form `set_meta(const SparseTensorMeta& meta)`. -/
def set_meta (h : Header) (self : SparseCsrTensor) (m : SparseTensorMeta) : Outcome :=
  match PADDLE_ENFORCE_EQ (h.valid m) true Error.InvalidArgument with
  | Except.error e => { thrown := some e, self := self }
  | Except.ok _ =>
    let self := { self with meta_ := { self.meta_ with dims := m.dims } }
    let self := { self with meta_ := { self.meta_ with dtype := m.dtype } }
    let self := { self with meta_ := { self.meta_ with layout := m.layout } }
    { thrown := none, self := self }

/-- The move form `set_meta(SparseTensorMeta&& meta)`. -/
def set_meta_move (h : Header) (self : SparseCsrTensor) (m : SparseTensorMeta) : Outcome :=
  match PADDLE_ENFORCE_EQ (h.valid self.meta_) false Error.InvalidArgument with
  | Except.error e => { thrown := some e, self := self }
  | Except.ok _ => { thrown := none, self := { self with meta_ := m } }

/-- The copy constructor `SparseCsrTensor(const SparseCsrTensor& other)`: the members start out
default, the body assigns the three buffers and calls the copy form of `set_meta`. -/
def copy_construct (h : Header) (other : SparseCsrTensor) : Except Error SparseCsrTensor :=
  let self : SparseCsrTensor := {}
  let self := { self with non_zero_crows_ := other.non_zero_crows_ }
  let self := { self with non_zero_cols_ := other.non_zero_cols_ }
  let self := { self with non_zero_elements_ := other.non_zero_elements_ }
  let r := set_meta h self other.meta_
  match r.thrown with
  | some e => Except.error e
  | none => Except.ok r.self

/-- Copy assignment `operator=(const SparseCsrTensor& other)`: the three buffers are assigned
first, then the copy form of `set_meta` is called. -/
def assign (h : Header) (self other : SparseCsrTensor) : Outcome :=
  let self := { self with non_zero_crows_ := other.non_zero_crows_ }
  let self := { self with non_zero_cols_ := other.non_zero_cols_ }
  let self := { self with non_zero_elements_ := other.non_zero_elements_ }
  set_meta h self other.meta_

/-- The setter `set_type(dtype)`. -/
def set_type (self : SparseCsrTensor) (dtype : DataType) : Outcome :=
  { thrown := none, self := { self with meta_ := { self.meta_ with dtype := dtype } } }

/-- The setter `set_layout(layout)`. -/
def set_layout (self : SparseCsrTensor) (layout : DataLayout) : Outcome :=
  { thrown := none, self := { self with meta_ := { self.meta_ with layout := layout } } }

/-- The member `Resize(dense_dims, non_zero_num)`. After `check_shape` the rank is at least 2,
so the reads `dense_dims[0]` and `dense_dims[1]` are in range. -/
def Resize (h : Header) (self : SparseCsrTensor) (dense_dims : DDim) (non_zero_num : Int) :
    Outcome :=
  match PADDLE_ENFORCE_EQ (h.initialized self) true Error.InvalidArgument with
  | Except.error e => { thrown := some e, self := self }
  | Except.ok _ =>
    match check_shape dense_dims with
    | Except.error e => { thrown := some e, self := self }
    | Except.ok _ =>
      let crows_size : Int := wrap_int64 (dense_dims.getD 0 0 + 1)
      let crows_size : Int :=
        if dense_dims.length = 3 then
          wrap_int64 (dense_dims.getD 0 0 * wrap_int64 (dense_dims.getD 1 0 + 1))
        else crows_size
      let crows_dims := make_ddim crows_size
      let self := { self with non_zero_crows_ := self.non_zero_crows_.Resize crows_dims }
      let col_dims := make_ddim non_zero_num
      let self := { self with non_zero_cols_ := self.non_zero_cols_.Resize col_dims }
      let self := { self with non_zero_elements_ := self.non_zero_elements_.Resize col_dims }
      { thrown := none, self := self }

/-- The overload `SetMember(non_zero_crows, non_zero_cols, non_zero_elements, dims)`. -/
def SetMember (self : SparseCsrTensor)
    (non_zero_crows non_zero_cols non_zero_elements : DenseTensor) (dims : DDim) : Outcome :=
  match Check non_zero_crows non_zero_cols non_zero_elements dims with
  | Except.error e => { thrown := some e, self := self }
  | Except.ok _ =>
    let self := { self with non_zero_crows_ := non_zero_crows }
    let self := { self with non_zero_cols_ := non_zero_cols }
    let self := { self with non_zero_elements_ := non_zero_elements }
    { thrown := none, self := { self with meta_ := { self.meta_ with dims := dims } } }

/-- The overload `SetMember(non_zero_crows, non_zero_cols, non_zero_elements, meta)`: the copy
form of `set_meta` runs after the three buffers have been assigned. -/
def SetMember_meta (h : Header) (self : SparseCsrTensor)
    (non_zero_crows non_zero_cols non_zero_elements : DenseTensor) (m : SparseTensorMeta) :
    Outcome :=
  match Check non_zero_crows non_zero_cols non_zero_elements m.dims with
  | Except.error e => { thrown := some e, self := self }
  | Except.ok _ =>
    let self := { self with non_zero_crows_ := non_zero_crows }
    let self := { self with non_zero_cols_ := non_zero_cols }
    let self := { self with non_zero_elements_ := non_zero_elements }
    set_meta h self m

/-- The query `sparse_dim()`. -/
def sparse_dim (_self : SparseCsrTensor) : Int := 2

/-- The query `dense_dim()`, in int32 arithmetic. -/
def dense_dim (self : SparseCsrTensor) : Int :=
  let nze_dim : Int := wrap_int32 self.non_zero_elements_.dims.length
  let batch_dim : Int := wrap_int32 (self.non_zero_crows_.dims.length - 1)
  let block_dim : Int := 0
  wrap_int32 (wrap_int32 (wrap_int32 (nze_dim - batch_dim) - block_dim) - 1)

end SparseCsrTensor

/-! ## Sample data -/

/-- A row-offsets buffer of length 5 with storage on the host. -/
def crows_cpu : DenseTensor :=
  { holder := some 1, place := Place.CPU, dims := [5], dtype := DataType.INT64 }

/-- A column-index buffer of length 6 with storage on the host. -/
def cols_cpu : DenseTensor :=
  { holder := some 2, place := Place.CPU, dims := [6], dtype := DataType.INT64 }

/-- A values buffer of length 6 with storage on the host. -/
def values_cpu : DenseTensor :=
  { holder := some 3, place := Place.CPU, dims := [6], dtype := DataType.FLOAT32 }

/-- A values buffer of length 6 with storage on an accelerator. -/
def values_gpu : DenseTensor :=
  { holder := some 4, place := Place.GPU 0, dims := [6], dtype := DataType.FLOAT32 }

/-- A row-offsets buffer without storage. -/
def crows_unallocated : DenseTensor :=
  { holder := none, place := Place.CPU, dims := [5], dtype := DataType.INT64 }

/-- The 4 x 4 container built from the host buffers. -/
def csr_4x4 : SparseCsrTensor :=
  { non_zero_crows_ := crows_cpu
    non_zero_cols_ := cols_cpu
    non_zero_elements_ := values_cpu
    meta_ := { dims := [4, 4], dtype := DataType.FLOAT32, layout := DataLayout.NCHW } }

/-- A metadata record with a 4 x 4 shape whose element type was never set. -/
def meta_4x4_untyped : SparseTensorMeta :=
  { dims := [4, 4], dtype := DataType.UNDEFINED, layout := DataLayout.NCHW }

/-- A metadata record with a 2 x 4 x 4 shape and a double-precision element type. -/
def meta_2x4x4_f64 : SparseTensorMeta :=
  { dims := [2, 4, 4], dtype := DataType.FLOAT64, layout := DataLayout.SPARSE_CSR }

/-- A values buffer of length 7 with storage on the host. -/
def values_cpu_7 : DenseTensor :=
  { holder := some 5, place := Place.CPU, dims := [7], dtype := DataType.FLOAT32 }

/-- A values buffer of six 2 x 2 blocks with storage on the host. -/
def values_blocks : DenseTensor :=
  { holder := some 6, place := Place.CPU, dims := [6, 2, 2], dtype := DataType.FLOAT32 }

/-- A values buffer of length 6 with storage on the host and no element type. -/
def values_untyped : DenseTensor :=
  { holder := some 7, place := Place.CPU, dims := [6], dtype := DataType.UNDEFINED }

/-- A container whose stored elements are 2 x 2 blocks. -/
def csr_blocks : SparseCsrTensor :=
  { non_zero_crows_ := crows_cpu
    non_zero_cols_ := cols_cpu
    non_zero_elements_ := values_blocks
    meta_ := { dims := [4, 4], dtype := DataType.FLOAT32, layout := DataLayout.NCHW } }

/-- The container built from a `column_indices` of length 6 and a `values` of length 7. -/
def csr_uneven : SparseCsrTensor :=
  { non_zero_crows_ := crows_cpu
    non_zero_cols_ := cols_cpu
    non_zero_elements_ := values_cpu_7
    meta_ := { dims := [4, 4], dtype := DataType.FLOAT32, layout := DataLayout.NCHW } }

/-- The container built from a `row_offsets` of length 5 and the shape 7 x 7. -/
def csr_7x7 : SparseCsrTensor :=
  { non_zero_crows_ := crows_cpu
    non_zero_cols_ := cols_cpu
    non_zero_elements_ := values_cpu
    meta_ := { dims := [7, 7], dtype := DataType.FLOAT32, layout := DataLayout.NCHW } }

/-! ## Histories of a container -/

/-- The number of scalars a buffer's shape spans, the product of its extents; for the
`row_offsets` buffer, whose entries are scalars, this is its length. -/
def DenseTensor.numel (t : DenseTensor) : Int := t.dims.prod

/-- Modelled from the spec: the length of a buffer that holds one entry per stored element, the
extent of its leading axis; the trailing axes are the dense dimensions of a single entry. For
a 1-D buffer this is its single extent. -/
def DenseTensor.length (t : DenseTensor) : Int := t.dims.getD 0 0

/-- A call of a mutating member function other than copy assignment, with its arguments. -/
inductive Call where
  | SetMember (non_zero_crows non_zero_cols non_zero_elements : DenseTensor) (dims : DDim)
  | SetMember_meta (non_zero_crows non_zero_cols non_zero_elements : DenseTensor)
      (m : SparseTensorMeta)
  | Resize (dense_dims : DDim) (non_zero_num : Int)
  | set_meta (m : SparseTensorMeta)
  | set_meta_move (m : SparseTensorMeta)
  | set_type (dtype : DataType)
  | set_layout (layout : DataLayout)
deriving DecidableEq, Repr

/-- The outcome of a call on a container. -/
def Call.run (h : Header) (self : SparseCsrTensor) : Call → Outcome
  | Call.SetMember crows cols elems dims => SparseCsrTensor.SetMember self crows cols elems dims
  | Call.SetMember_meta crows cols elems m =>
    SparseCsrTensor.SetMember_meta h self crows cols elems m
  | Call.Resize dense_dims n => SparseCsrTensor.Resize h self dense_dims n
  | Call.set_meta m => SparseCsrTensor.set_meta h self m
  | Call.set_meta_move m => SparseCsrTensor.set_meta_move h self m
  | Call.set_type dtype => SparseCsrTensor.set_type self dtype
  | Call.set_layout layout => SparseCsrTensor.set_layout self layout

/-- The containers a program can obtain: by default construction, by a successful construction
from components, by a successful copy construction from an obtained container, by a successful
copy assignment between obtained containers, or by a successful call on an obtained container.
The condition `given_ok` restricts the arguments of the constructions from components, and
`call_ok` restricts the calls, each seen with the container it is applied to. -/
inductive Obtained (h : Header)
    (given_ok : DenseTensor → DenseTensor → DenseTensor → DDim → Prop)
    (call_ok : SparseCsrTensor → Call → Prop) : SparseCsrTensor → Prop where
  | default_constructed : Obtained h given_ok call_ok SparseCsrTensor.empty
  | constructed (crows cols elems : DenseTensor) (dims : DDim) (t : SparseCsrTensor)
      (hg : given_ok crows cols elems dims)
      (hok : SparseCsrTensor.construct crows cols elems dims = Except.ok t) :
      Obtained h given_ok call_ok t
  | copy_constructed (s t : SparseCsrTensor) (hs : Obtained h given_ok call_ok s)
      (hok : SparseCsrTensor.copy_construct h s = Except.ok t) :
      Obtained h given_ok call_ok t
  | assigned (s other : SparseCsrTensor) (hs : Obtained h given_ok call_ok s)
      (ho : Obtained h given_ok call_ok other)
      (hok : (SparseCsrTensor.assign h s other).thrown = none) :
      Obtained h given_ok call_ok (SparseCsrTensor.assign h s other).self
  | called (s : SparseCsrTensor) (c : Call) (hs : Obtained h given_ok call_ok s)
      (hc : call_ok s c) (hok : (c.run h s).thrown = none) :
      Obtained h given_ok call_ok (c.run h s).self

/-- No restriction on the arguments of a construction from components. -/
def any_given : DenseTensor → DenseTensor → DenseTensor → DDim → Prop :=
  fun _ _ _ _ => True

/-- No restriction on the calls. -/
def any_call : SparseCsrTensor → Call → Prop :=
  fun _ _ => True

/-- The construction is given `column_indices` and `values` buffers of equal length. -/
def equal_lengths_given : DenseTensor → DenseTensor → DenseTensor → DDim → Prop :=
  fun _ cols elems _ => cols.length = elems.length

/-- Every `SetMember` call is given `column_indices` and `values` buffers of equal length. -/
def equal_lengths_call : SparseCsrTensor → Call → Prop
  | _, Call.SetMember _ cols elems _ => cols.length = elems.length
  | _, Call.SetMember_meta _ cols elems _ => cols.length = elems.length
  | _, _ => True

/-- The `row_offsets` length that `Resize` computes for a shape of rank 2 or 3, in int64
arithmetic: `dims[0] + 1`, and `dims[0] * (dims[1] + 1)` when the rank is 3. -/
def crows_size (dims : DDim) : Int :=
  if dims.length = 3 then wrap_int64 (dims.getD 0 0 * wrap_int64 (dims.getD 1 0 + 1))
  else wrap_int64 (dims.getD 0 0 + 1)

/-- The buffer has the `row_offsets` length that a shape of rank 2 or 3 requires. -/
def crows_matches (crows : DenseTensor) (dims : DDim) : Prop :=
  (dims.length = 2 ∨ dims.length = 3) → crows.numel = crows_size dims

/-- The construction is given a `row_offsets` buffer of the length its `dims` require. -/
def in_step_given : DenseTensor → DenseTensor → DenseTensor → DDim → Prop :=
  fun crows _ _ dims => crows_matches crows dims

/-- Every `SetMember` call is given a `row_offsets` buffer of the length its shape requires,
every `Resize` is called with the current `meta.dims`, and every `set_meta` keeps `meta.dims`. -/
def in_step_call : SparseCsrTensor → Call → Prop
  | _, Call.SetMember crows _ _ dims => crows_matches crows dims
  | _, Call.SetMember_meta crows _ _ m => crows_matches crows m.dims
  | s, Call.Resize dense_dims _ => dense_dims = s.meta_.dims
  | s, Call.set_meta m => m.dims = s.meta_.dims
  | s, Call.set_meta_move m => m.dims = s.meta_.dims
  | _, _ => True

/-! ## Auxiliary facts about the checks -/

theorem check_shape_ok_iff (dims : DDim) :
    check_shape dims = Except.ok () ↔ (dims.length = 2 ∨ dims.length = 3) := by
  unfold check_shape PADDLE_ENFORCE_EQ
  by_cases h2 : dims.length = 2
  · simp [h2]
  · by_cases h3 : dims.length = 3
    · simp [h3]
    · simp [h2, h3]

theorem check_shape_error_iff (dims : DDim) :
    check_shape dims = Except.error Error.InvalidArgument ↔
      ¬ (dims.length = 2 ∨ dims.length = 3) := by
  unfold check_shape PADDLE_ENFORCE_EQ
  by_cases h2 : dims.length = 2
  · simp [h2]
  · by_cases h3 : dims.length = 3
    · simp [h3]
    · simp [h2, h3]

theorem Check_ok_iff (crows cols elems : DenseTensor) (dims : DDim) :
    Check crows cols elems dims = Except.ok () ↔
      (dims.length = 2 ∨ dims.length = 3) ∧ cols.place = crows.place ∧
        cols.place = elems.place := by
  unfold Check
  by_cases hs : dims.length = 2 ∨ dims.length = 3
  · rw [(check_shape_ok_iff dims).2 hs]
    by_cases h1 : cols.place = crows.place
    · by_cases h2 : cols.place = elems.place
      · simp only [PADDLE_ENFORCE_EQ, bind, Except.bind, if_pos h1, if_pos h2]
        tauto
      · simp only [PADDLE_ENFORCE_EQ, bind, Except.bind, if_pos h1, if_neg h2]
        constructor
        · intro hc
          cases hc
        · intro hc
          exact absurd hc.2.2 h2
    · simp only [PADDLE_ENFORCE_EQ, bind, Except.bind, if_neg h1]
      constructor
      · intro hc
        cases hc
      · intro hc
        exact absurd hc.2.1 h1
  · rw [(check_shape_error_iff dims).2 hs]
    simp [bind, Except.bind, hs]

theorem Check_error_iff (crows cols elems : DenseTensor) (dims : DDim) :
    Check crows cols elems dims = Except.error Error.InvalidArgument ↔
      ¬ ((dims.length = 2 ∨ dims.length = 3) ∧ cols.place = crows.place ∧
        cols.place = elems.place) := by
  rw [← Check_ok_iff]
  cases hc : Check crows cols elems dims with
  | error e => cases e; simp
  | ok u => simp

theorem construct_unfold (crows cols elems : DenseTensor) (dims : DDim) :
    SparseCsrTensor.construct crows cols elems dims =
      match (if crows.initialized = true then Check crows cols elems dims
             else check_shape dims) with
      | Except.error e => Except.error e
      | Except.ok _ =>
        Except.ok
          { non_zero_crows_ := crows
            non_zero_cols_ := cols
            non_zero_elements_ := elems
            meta_ := { dims := dims, dtype := elems.dtype, layout := DataLayout.NCHW } } := by
  rfl

theorem except_unit_cases (r : Except Error Unit) :
    r = Except.ok () ∨ r = Except.error Error.InvalidArgument := by
  cases r with
  | error e => cases e; exact Or.inr rfl
  | ok u => exact Or.inl rfl

theorem wrap_int64_of_range (x : Int) (hlo : -2 ^ 63 ≤ x) (hhi : x < 2 ^ 63) :
    wrap_int64 x = x := by
  unfold wrap_int64
  rw [Int.emod_eq_of_lt (by omega) (by omega)]
  omega

theorem Resize_ok (h : Header) (self : SparseCsrTensor) (dense_dims : DDim) (n : Int)
    (hi : h.initialized self = true) (hr : dense_dims.length = 2 ∨ dense_dims.length = 3) :
    SparseCsrTensor.Resize h self dense_dims n =
      { thrown := none
        self :=
          { non_zero_crows_ :=
              { self.non_zero_crows_ with
                dims :=
                  [if dense_dims.length = 3 then
                      wrap_int64 (dense_dims.getD 0 0 * wrap_int64 (dense_dims.getD 1 0 + 1))
                    else wrap_int64 (dense_dims.getD 0 0 + 1)] }
            non_zero_cols_ := { self.non_zero_cols_ with dims := [n] }
            non_zero_elements_ := { self.non_zero_elements_ with dims := [n] }
            meta_ := self.meta_ } } := by
  unfold SparseCsrTensor.Resize
  rw [(check_shape_ok_iff dense_dims).2 hr]
  simp only [PADDLE_ENFORCE_EQ, hi, if_true, DenseTensor.Resize, make_ddim]

theorem Resize_error (h : Header) (self : SparseCsrTensor) (dense_dims : DDim) (n : Int)
    (hbad : h.initialized self = false ∨ ¬ (dense_dims.length = 2 ∨ dense_dims.length = 3)) :
    SparseCsrTensor.Resize h self dense_dims n =
      { thrown := some Error.InvalidArgument, self := self } := by
  unfold SparseCsrTensor.Resize
  by_cases hi : h.initialized self = true
  · rcases hbad with hb | hb
    · rw [hi] at hb
      cases hb
    · rw [(check_shape_error_iff dense_dims).2 hb]
      simp only [PADDLE_ENFORCE_EQ, hi, if_true]
  · have hf : h.initialized self = false := by simpa using hi
    simp only [PADDLE_ENFORCE_EQ, hf]
    rfl

theorem set_meta_ok (h : Header) (self : SparseCsrTensor) (m : SparseTensorMeta)
    (hv : h.valid m = true) :
    SparseCsrTensor.set_meta h self m = { thrown := none, self := { self with meta_ := m } } := by
  unfold SparseCsrTensor.set_meta
  simp only [PADDLE_ENFORCE_EQ, hv, if_true]

theorem set_meta_error (h : Header) (self : SparseCsrTensor) (m : SparseTensorMeta)
    (hv : h.valid m = false) :
    SparseCsrTensor.set_meta h self m =
      { thrown := some Error.InvalidArgument, self := self } := by
  unfold SparseCsrTensor.set_meta
  simp only [PADDLE_ENFORCE_EQ, hv]
  rfl

theorem set_meta_move_ok (h : Header) (self : SparseCsrTensor) (m : SparseTensorMeta)
    (hv : h.valid self.meta_ = false) :
    SparseCsrTensor.set_meta_move h self m =
      { thrown := none, self := { self with meta_ := m } } := by
  unfold SparseCsrTensor.set_meta_move
  simp only [PADDLE_ENFORCE_EQ, hv, if_true]

theorem set_meta_move_error (h : Header) (self : SparseCsrTensor) (m : SparseTensorMeta)
    (hv : h.valid self.meta_ = true) :
    SparseCsrTensor.set_meta_move h self m =
      { thrown := some Error.InvalidArgument, self := self } := by
  unfold SparseCsrTensor.set_meta_move
  simp only [PADDLE_ENFORCE_EQ, hv]
  rfl

theorem SetMember_ok (self : SparseCsrTensor) (crows cols elems : DenseTensor) (dims : DDim)
    (hc : Check crows cols elems dims = Except.ok ()) :
    SparseCsrTensor.SetMember self crows cols elems dims =
      { thrown := none
        self :=
          { non_zero_crows_ := crows
            non_zero_cols_ := cols
            non_zero_elements_ := elems
            meta_ := { self.meta_ with dims := dims } } } := by
  unfold SparseCsrTensor.SetMember
  rw [hc]

theorem SetMember_error (self : SparseCsrTensor) (crows cols elems : DenseTensor) (dims : DDim)
    (hc : Check crows cols elems dims = Except.error Error.InvalidArgument) :
    SparseCsrTensor.SetMember self crows cols elems dims =
      { thrown := some Error.InvalidArgument, self := self } := by
  unfold SparseCsrTensor.SetMember
  rw [hc]

theorem SetMember_meta_checked (h : Header) (self : SparseCsrTensor)
    (crows cols elems : DenseTensor) (m : SparseTensorMeta)
    (hc : Check crows cols elems m.dims = Except.ok ()) :
    SparseCsrTensor.SetMember_meta h self crows cols elems m =
      SparseCsrTensor.set_meta h
        { non_zero_crows_ := crows
          non_zero_cols_ := cols
          non_zero_elements_ := elems
          meta_ := self.meta_ } m := by
  unfold SparseCsrTensor.SetMember_meta
  rw [hc]

theorem SetMember_meta_error (h : Header) (self : SparseCsrTensor)
    (crows cols elems : DenseTensor) (m : SparseTensorMeta)
    (hc : Check crows cols elems m.dims = Except.error Error.InvalidArgument) :
    SparseCsrTensor.SetMember_meta h self crows cols elems m =
      { thrown := some Error.InvalidArgument, self := self } := by
  unfold SparseCsrTensor.SetMember_meta
  rw [hc]

theorem assign_unfold (h : Header) (self other : SparseCsrTensor) :
    SparseCsrTensor.assign h self other =
      SparseCsrTensor.set_meta h
        { non_zero_crows_ := other.non_zero_crows_
          non_zero_cols_ := other.non_zero_cols_
          non_zero_elements_ := other.non_zero_elements_
          meta_ := self.meta_ } other.meta_ := by
  rfl

theorem bool_true_or_false (b : Bool) : b = true ∨ b = false := by
  cases b
  · exact Or.inr rfl
  · exact Or.inl rfl

/-! ## Construction from components -/

/-- C1: construction from components fails with InvalidArgument exactly when the rank of `dims`
is not 2 or 3, or `row_offsets` is initialized and the placements of `row_offsets` and
`column_indices`, or of `column_indices` and `values`, differ; when `row_offsets` is
uninitialized and the rank is 2 or 3, construction succeeds whatever the placements are. -/
theorem construct_fails_iff (crows cols elems : DenseTensor) (dims : DDim) :
    (SparseCsrTensor.construct crows cols elems dims = Except.error Error.InvalidArgument ↔
      (¬ (dims.length = 2 ∨ dims.length = 3) ∨
        (crows.initialized = true ∧
          (crows.place ≠ cols.place ∨ cols.place ≠ elems.place)))) ∧
    (crows.initialized = false → (dims.length = 2 ∨ dims.length = 3) →
      ∃ t, SparseCsrTensor.construct crows cols elems dims = Except.ok t) := by
  rw [construct_unfold]
  by_cases hi : crows.initialized = true
  · rw [if_pos hi]
    rcases except_unit_cases (Check crows cols elems dims) with hc | hc
    · rw [hc]
      have hk := (Check_ok_iff crows cols elems dims).1 hc
      refine ⟨⟨fun hcon => (by cases hcon), ?_⟩, fun hf => ?_⟩
      · rintro (hr | ⟨_, hp | hp⟩)
        · exact absurd hk.1 hr
        · exact absurd hk.2.1.symm hp
        · exact absurd hk.2.2 hp
      · rw [hi] at hf
        cases hf
    · rw [hc]
      have hk := (Check_error_iff crows cols elems dims).1 hc
      refine ⟨⟨fun _ => ?_, fun _ => rfl⟩, fun hf => ?_⟩
      · by_cases hr : dims.length = 2 ∨ dims.length = 3
        · right
          refine ⟨hi, ?_⟩
          by_cases hp : crows.place = cols.place
          · right
            intro hq
            exact hk ⟨hr, hp.symm, hq⟩
          · exact Or.inl hp
        · exact Or.inl hr
      · rw [hi] at hf
        cases hf
  · rw [if_neg hi]
    rcases except_unit_cases (check_shape dims) with hc | hc
    · rw [hc]
      have hk := (check_shape_ok_iff dims).1 hc
      refine ⟨⟨fun hcon => (by cases hcon), ?_⟩, fun _ _ => ⟨_, rfl⟩⟩
      rintro (hr | ⟨hj, _⟩)
      · exact absurd hk hr
      · exact absurd hj hi
    · rw [hc]
      have hk := (check_shape_error_iff dims).1 hc
      exact ⟨⟨fun _ => Or.inl hk, fun _ => rfl⟩, fun _ hr => absurd hr hk⟩

/-- Witness for C1: an uninitialized `row_offsets`, rank 2, `column_indices` on the host and
`values` on an accelerator. -/
theorem construct_fails_iff_witness :
    ∃ t, SparseCsrTensor.construct crows_unallocated cols_cpu values_gpu [4, 4] = Except.ok t :=
  (construct_fails_iff crows_unallocated cols_cpu values_gpu [4, 4]).2 rfl (Or.inl rfl)

/-- C2: a successful construction from components holds exactly the three given buffers, with
`meta.dims = dims`, `meta.dtype = values.dtype()` and `meta.layout = NCHW`. -/
theorem construct_stores (crows cols elems : DenseTensor) (dims : DDim) (t : SparseCsrTensor)
    (hok : SparseCsrTensor.construct crows cols elems dims = Except.ok t) :
    t.non_zero_crows_ = crows ∧ t.non_zero_cols_ = cols ∧ t.non_zero_elements_ = elems ∧
      t.meta_.dims = dims ∧ t.meta_.dtype = elems.dtype ∧
      t.meta_.layout = DataLayout.NCHW := by
  rw [construct_unfold] at hok
  split at hok
  · cases hok
  · cases hok
    exact ⟨rfl, rfl, rfl, rfl, rfl, rfl⟩

/-- Witness for C2: the host buffers with shape 4 x 4. -/
theorem construct_stores_witness :
    SparseCsrTensor.construct crows_cpu cols_cpu values_cpu [4, 4] = Except.ok csr_4x4 ∧
      csr_4x4.non_zero_crows_ = crows_cpu ∧ csr_4x4.non_zero_cols_ = cols_cpu ∧
      csr_4x4.non_zero_elements_ = values_cpu ∧ csr_4x4.meta_.dims = [4, 4] ∧
      csr_4x4.meta_.dtype = values_cpu.dtype ∧ csr_4x4.meta_.layout = DataLayout.NCHW :=
  ⟨rfl, construct_stores crows_cpu cols_cpu values_cpu [4, 4] csr_4x4 rfl⟩

/-! ## Resize -/

/-- C3: on an initialized container, `Resize` with a rank-2 shape `[d0, d1]` succeeds and leaves
`row_offsets` 1-D of length `d0 + 1`; with a rank-3 shape `[d0, d1, d2]` it succeeds and
leaves `row_offsets` 1-D of length `d0 * (d1 + 1)` (int64 arithmetic, which is the exact value
whenever the results fit in 64 bits); in both cases `column_indices` and `values` are 1-D of
length `non_zero_count`. `Resize([4,4], 6)` gives lengths 5, 6, 6 and `Resize([2,4,4], 6)`
gives a `row_offsets` of length 10. -/
theorem Resize_lengths (h : Header) (self : SparseCsrTensor) (n : Int)
    (hi : h.initialized self = true) :
    (∀ d0 d1 : Int,
      (SparseCsrTensor.Resize h self [d0, d1] n).thrown = none ∧
      (SparseCsrTensor.Resize h self [d0, d1] n).self.non_zero_crows_.dims
        = [wrap_int64 (d0 + 1)] ∧
      (SparseCsrTensor.Resize h self [d0, d1] n).self.non_zero_cols_.dims = [n] ∧
      (SparseCsrTensor.Resize h self [d0, d1] n).self.non_zero_elements_.dims = [n]) ∧
    (∀ d0 d1 d2 : Int,
      (SparseCsrTensor.Resize h self [d0, d1, d2] n).thrown = none ∧
      (SparseCsrTensor.Resize h self [d0, d1, d2] n).self.non_zero_crows_.dims
        = [wrap_int64 (d0 * wrap_int64 (d1 + 1))] ∧
      (SparseCsrTensor.Resize h self [d0, d1, d2] n).self.non_zero_cols_.dims = [n] ∧
      (SparseCsrTensor.Resize h self [d0, d1, d2] n).self.non_zero_elements_.dims = [n]) ∧
    (∀ d0 d1 : Int, -2 ^ 63 ≤ d0 + 1 → d0 + 1 < 2 ^ 63 →
      (SparseCsrTensor.Resize h self [d0, d1] n).self.non_zero_crows_.dims = [d0 + 1]) ∧
    (∀ d0 d1 d2 : Int, -2 ^ 63 ≤ d1 + 1 → d1 + 1 < 2 ^ 63 →
      -2 ^ 63 ≤ d0 * (d1 + 1) → d0 * (d1 + 1) < 2 ^ 63 →
      (SparseCsrTensor.Resize h self [d0, d1, d2] n).self.non_zero_crows_.dims
        = [d0 * (d1 + 1)]) ∧
    ((SparseCsrTensor.Resize h self [4, 4] 6).self.non_zero_crows_.dims = [5] ∧
      (SparseCsrTensor.Resize h self [4, 4] 6).self.non_zero_cols_.dims = [6] ∧
      (SparseCsrTensor.Resize h self [4, 4] 6).self.non_zero_elements_.dims = [6] ∧
      (SparseCsrTensor.Resize h self [2, 4, 4] 6).self.non_zero_crows_.dims = [10]) := by
  refine ⟨fun d0 d1 => ?_, fun d0 d1 d2 => ?_, fun d0 d1 hlo hhi => ?_,
    fun d0 d1 d2 hlo hhi hmlo hmhi => ?_, ?_⟩
  · rw [Resize_ok h self [d0, d1] n hi (Or.inl rfl)]
    exact ⟨rfl, rfl, rfl, rfl⟩
  · rw [Resize_ok h self [d0, d1, d2] n hi (Or.inr rfl)]
    exact ⟨rfl, rfl, rfl, rfl⟩
  · rw [Resize_ok h self [d0, d1] n hi (Or.inl rfl)]
    show [wrap_int64 (d0 + 1)] = [d0 + 1]
    rw [wrap_int64_of_range (d0 + 1) hlo hhi]
  · rw [Resize_ok h self [d0, d1, d2] n hi (Or.inr rfl)]
    show [wrap_int64 (d0 * wrap_int64 (d1 + 1))] = [d0 * (d1 + 1)]
    rw [wrap_int64_of_range (d1 + 1) hlo hhi, wrap_int64_of_range (d0 * (d1 + 1)) hmlo hmhi]
  · rw [Resize_ok h self [4, 4] 6 hi (Or.inl rfl), Resize_ok h self [2, 4, 4] 6 hi (Or.inr rfl)]
    have e5 : wrap_int64 (4 + 1) = 5 := by decide
    have e10 : wrap_int64 (2 * wrap_int64 (4 + 1)) = 10 := by decide
    refine ⟨?_, rfl, rfl, ?_⟩
    · show [wrap_int64 (4 + 1)] = [5]
      rw [e5]
    · show [wrap_int64 (2 * wrap_int64 (4 + 1))] = [10]
      rw [e10]

/-- Witness for C3: the 4 x 4 host container, whose `values` buffer has storage, resized for
7 stored elements. -/
theorem Resize_lengths_witness :
    (SparseCsrTensor.Resize sparse_csr_tensor_h csr_4x4 [4, 4] 7).thrown = none ∧
      (SparseCsrTensor.Resize sparse_csr_tensor_h csr_4x4 [4, 4] 7).self.non_zero_crows_.dims
        = [wrap_int64 (4 + 1)] ∧
      (SparseCsrTensor.Resize sparse_csr_tensor_h csr_4x4 [4, 4] 7).self.non_zero_cols_.dims
        = [7] ∧
      (SparseCsrTensor.Resize sparse_csr_tensor_h csr_4x4 [4, 4] 7).self.non_zero_elements_.dims
        = [7] :=
  (Resize_lengths sparse_csr_tensor_h csr_4x4 7 rfl).1 4 4

/-- C4: `Resize` fails with InvalidArgument exactly when the container is not initialized or
the rank of `dense_dims` is not 2 or 3; on a default-constructed container it fails for every
`dense_dims` and every `non_zero_count`. -/
theorem Resize_fails_iff (h : Header) (self : SparseCsrTensor) (dense_dims : DDim) (n : Int) :
    ((SparseCsrTensor.Resize h self dense_dims n).thrown = some Error.InvalidArgument ↔
      (h.initialized self = false ∨ ¬ (dense_dims.length = 2 ∨ dense_dims.length = 3))) ∧
    (SparseCsrTensor.Resize h SparseCsrTensor.empty dense_dims n).thrown
      = some Error.InvalidArgument := by
  constructor
  · constructor
    · intro hf
      by_contra hgood
      have hi : h.initialized self = true := by
        by_contra hi
        exact hgood (Or.inl (by simpa using hi))
      have hr : dense_dims.length = 2 ∨ dense_dims.length = 3 := by
        by_contra hr
        exact hgood (Or.inr hr)
      rw [Resize_ok h self dense_dims n hi hr] at hf
      cases hf
    · intro hbad
      rw [Resize_error h self dense_dims n hbad]
  · rw [Resize_error h SparseCsrTensor.empty dense_dims n (Or.inl h.default_uninitialized)]

/-- C10: a successful `Resize` leaves the metadata record (dims, dtype, layout) as it was; in
particular `meta.dims` is not set to `dense_dims`. -/
theorem Resize_keeps_meta (h : Header) (self : SparseCsrTensor) (dense_dims : DDim) (n : Int)
    (hok : (SparseCsrTensor.Resize h self dense_dims n).thrown = none) :
    (SparseCsrTensor.Resize h self dense_dims n).self.meta_ = self.meta_ ∧
      (SparseCsrTensor.Resize h self dense_dims n).self.meta_.dims = self.meta_.dims ∧
      (SparseCsrTensor.Resize h self dense_dims n).self.meta_.dtype = self.meta_.dtype ∧
      (SparseCsrTensor.Resize h self dense_dims n).self.meta_.layout = self.meta_.layout := by
  by_cases hgood : h.initialized self = true ∧ (dense_dims.length = 2 ∨ dense_dims.length = 3)
  · rw [Resize_ok h self dense_dims n hgood.1 hgood.2]
    exact ⟨rfl, rfl, rfl, rfl⟩
  · have hbad : h.initialized self = false ∨
        ¬ (dense_dims.length = 2 ∨ dense_dims.length = 3) := by
      by_cases hi : h.initialized self = true
      · exact Or.inr (fun hr => hgood ⟨hi, hr⟩)
      · exact Or.inl (by simpa using hi)
    rw [Resize_error h self dense_dims n hbad] at hok
    cases hok

/-- Witness for C10: the 4 x 4 host container resized to the batched shape 2 x 4 x 4 keeps the
logical shape 4 x 4. -/
theorem Resize_keeps_meta_witness :
    (SparseCsrTensor.Resize sparse_csr_tensor_h csr_4x4 [2, 4, 4] 6).thrown = none ∧
      (SparseCsrTensor.Resize sparse_csr_tensor_h csr_4x4 [2, 4, 4] 6).self.meta_.dims
        = [4, 4] :=
  ⟨rfl, (Resize_keeps_meta sparse_csr_tensor_h csr_4x4 [2, 4, 4] 6 rfl).2.1⟩

/-! ## Rebinding the metadata -/

/-- C7: the move form of `set_meta` fails with InvalidArgument exactly when the container's
current metadata is valid (and returns normally otherwise); when it succeeds the metadata
equals the incoming record and the three buffers are unchanged. -/
theorem set_meta_move_spec (h : Header) (self : SparseCsrTensor) (m : SparseTensorMeta) :
    ((SparseCsrTensor.set_meta_move h self m).thrown = some Error.InvalidArgument ↔
      h.valid self.meta_ = true) ∧
    ((SparseCsrTensor.set_meta_move h self m).thrown = none ↔ h.valid self.meta_ = false) ∧
    ((SparseCsrTensor.set_meta_move h self m).thrown = none →
      (SparseCsrTensor.set_meta_move h self m).self.meta_ = m ∧
      (SparseCsrTensor.set_meta_move h self m).self.non_zero_crows_ = self.non_zero_crows_ ∧
      (SparseCsrTensor.set_meta_move h self m).self.non_zero_cols_ = self.non_zero_cols_ ∧
      (SparseCsrTensor.set_meta_move h self m).self.non_zero_elements_
        = self.non_zero_elements_) := by
  rcases bool_true_or_false (h.valid self.meta_) with hv | hv
  · rw [set_meta_move_error h self m hv, hv]
    refine ⟨⟨fun _ => rfl, fun _ => rfl⟩, ⟨fun hc => ?_, fun hc => ?_⟩, fun hc => ?_⟩
    · cases hc
    · cases hc
    · cases hc
  · rw [set_meta_move_ok h self m hv, hv]
    refine ⟨⟨fun hc => ?_, fun hc => ?_⟩, ⟨fun _ => rfl, fun _ => rfl⟩, fun _ => ?_⟩
    · cases hc
    · cases hc
    · exact ⟨rfl, rfl, rfl, rfl⟩

/-- Witness for C7: a default-constructed container receives the batched double-precision
record. -/
theorem set_meta_move_spec_witness :
    (SparseCsrTensor.set_meta_move sparse_csr_tensor_h SparseCsrTensor.empty
        meta_2x4x4_f64).self.meta_ = meta_2x4x4_f64 ∧
      (SparseCsrTensor.set_meta_move sparse_csr_tensor_h SparseCsrTensor.empty
        meta_2x4x4_f64).self.non_zero_crows_ = SparseCsrTensor.empty.non_zero_crows_ ∧
      (SparseCsrTensor.set_meta_move sparse_csr_tensor_h SparseCsrTensor.empty
        meta_2x4x4_f64).self.non_zero_cols_ = SparseCsrTensor.empty.non_zero_cols_ ∧
      (SparseCsrTensor.set_meta_move sparse_csr_tensor_h SparseCsrTensor.empty
        meta_2x4x4_f64).self.non_zero_elements_ = SparseCsrTensor.empty.non_zero_elements_ :=
  (set_meta_move_spec sparse_csr_tensor_h SparseCsrTensor.empty meta_2x4x4_f64).2.2 rfl

/-- Counterexample to C8: on a default-constructed container, whose metadata is invalid, the
move form of `set_meta` with a default (invalid) record succeeds, and the container's metadata
is invalid afterwards. -/
theorem set_meta_move_valid_counterexample :
    sparse_csr_tensor_h.valid SparseCsrTensor.empty.meta_ = false ∧
      (SparseCsrTensor.set_meta_move sparse_csr_tensor_h SparseCsrTensor.empty {}).thrown
        = none ∧
      sparse_csr_tensor_h.valid
        (SparseCsrTensor.set_meta_move sparse_csr_tensor_h SparseCsrTensor.empty {}).self.meta_
        = false := by
  exact ⟨rfl, rfl, rfl⟩

/-- C8, amended: on a container whose metadata is invalid the move form of `set_meta` succeeds
for every incoming record, and afterwards `meta.valid()` is the validity of the incoming
record: true when the incoming record is valid. -/
theorem set_meta_move_valid (h : Header) (self : SparseCsrTensor) (m : SparseTensorMeta)
    (hv : h.valid self.meta_ = false) :
    (SparseCsrTensor.set_meta_move h self m).thrown = none ∧
      h.valid (SparseCsrTensor.set_meta_move h self m).self.meta_ = h.valid m ∧
      (h.valid m = true →
        h.valid (SparseCsrTensor.set_meta_move h self m).self.meta_ = true) := by
  rw [set_meta_move_ok h self m hv]
  exact ⟨rfl, rfl, fun hm => hm⟩

/-- Witness for C8, amended: a default-constructed container receives a valid record. -/
theorem set_meta_move_valid_witness :
    (SparseCsrTensor.set_meta_move sparse_csr_tensor_h SparseCsrTensor.empty
        meta_2x4x4_f64).thrown = none ∧
      sparse_csr_tensor_h.valid
        (SparseCsrTensor.set_meta_move sparse_csr_tensor_h SparseCsrTensor.empty
          meta_2x4x4_f64).self.meta_ = true :=
  ⟨(set_meta_move_valid sparse_csr_tensor_h SparseCsrTensor.empty meta_2x4x4_f64 rfl).1,
    (set_meta_move_valid sparse_csr_tensor_h SparseCsrTensor.empty meta_2x4x4_f64 rfl).2.2 rfl⟩

/-- C9: the copy form of `set_meta` fails with InvalidArgument exactly when the incoming record
is invalid (and returns normally otherwise), whether or not the current metadata is valid; when
it succeeds, `meta.dims`, `meta.dtype` and `meta.layout` equal those of the incoming record and
the three buffers are unchanged. -/
theorem set_meta_spec (h : Header) (self : SparseCsrTensor) (m : SparseTensorMeta) :
    ((SparseCsrTensor.set_meta h self m).thrown = some Error.InvalidArgument ↔
      h.valid m = false) ∧
    ((SparseCsrTensor.set_meta h self m).thrown = none ↔ h.valid m = true) ∧
    ((SparseCsrTensor.set_meta h self m).thrown = none →
      (SparseCsrTensor.set_meta h self m).self.meta_.dims = m.dims ∧
      (SparseCsrTensor.set_meta h self m).self.meta_.dtype = m.dtype ∧
      (SparseCsrTensor.set_meta h self m).self.meta_.layout = m.layout ∧
      (SparseCsrTensor.set_meta h self m).self.non_zero_crows_ = self.non_zero_crows_ ∧
      (SparseCsrTensor.set_meta h self m).self.non_zero_cols_ = self.non_zero_cols_ ∧
      (SparseCsrTensor.set_meta h self m).self.non_zero_elements_
        = self.non_zero_elements_) := by
  rcases bool_true_or_false (h.valid m) with hv | hv
  · rw [set_meta_ok h self m hv, hv]
    refine ⟨⟨fun hc => ?_, fun hc => ?_⟩, ⟨fun _ => rfl, fun _ => rfl⟩, fun _ => ?_⟩
    · cases hc
    · cases hc
    · exact ⟨rfl, rfl, rfl, rfl, rfl, rfl⟩
  · rw [set_meta_error h self m hv, hv]
    refine ⟨⟨fun _ => rfl, fun _ => rfl⟩, ⟨fun hc => ?_, fun hc => ?_⟩, fun hc => ?_⟩
    · cases hc
    · cases hc
    · cases hc

/-- Witness for C9: the 4 x 4 host container, whose metadata is valid, receives the batched
double-precision record. -/
theorem set_meta_spec_witness :
    sparse_csr_tensor_h.valid csr_4x4.meta_ = true ∧
      (SparseCsrTensor.set_meta sparse_csr_tensor_h csr_4x4 meta_2x4x4_f64).self.meta_.dims
        = [2, 4, 4] ∧
      (SparseCsrTensor.set_meta sparse_csr_tensor_h csr_4x4 meta_2x4x4_f64).self.meta_.dtype
        = DataType.FLOAT64 ∧
      (SparseCsrTensor.set_meta sparse_csr_tensor_h csr_4x4 meta_2x4x4_f64).self.meta_.layout
        = DataLayout.SPARSE_CSR ∧
      (SparseCsrTensor.set_meta sparse_csr_tensor_h csr_4x4 meta_2x4x4_f64).self.non_zero_crows_
        = crows_cpu ∧
      (SparseCsrTensor.set_meta sparse_csr_tensor_h csr_4x4 meta_2x4x4_f64).self.non_zero_cols_
        = cols_cpu ∧
      (SparseCsrTensor.set_meta sparse_csr_tensor_h csr_4x4
        meta_2x4x4_f64).self.non_zero_elements_ = values_cpu :=
  ⟨rfl, (set_meta_spec sparse_csr_tensor_h csr_4x4 meta_2x4x4_f64).2.2 rfl⟩

/-! ## Copying -/

/-- Counterexample to C6: copy construction from a default-constructed container fails with
InvalidArgument, and so does copy assignment from it. -/
theorem copy_counterexample :
    SparseCsrTensor.copy_construct sparse_csr_tensor_h SparseCsrTensor.empty
        = Except.error Error.InvalidArgument ∧
      (SparseCsrTensor.assign sparse_csr_tensor_h csr_4x4 SparseCsrTensor.empty).thrown
        = some Error.InvalidArgument := by
  exact ⟨rfl, rfl⟩

/-- C6, amended: for every source container whose metadata is valid, copy construction and copy
assignment succeed and produce a container that holds the same three buffers as the source and
whose metadata has the same dims, dtype and layout as the source. -/
theorem copy_of_valid (h : Header) (self other : SparseCsrTensor)
    (hv : h.valid other.meta_ = true) :
    (∃ t, SparseCsrTensor.copy_construct h other = Except.ok t ∧
      t.non_zero_crows_ = other.non_zero_crows_ ∧ t.non_zero_cols_ = other.non_zero_cols_ ∧
      t.non_zero_elements_ = other.non_zero_elements_ ∧ t.meta_.dims = other.meta_.dims ∧
      t.meta_.dtype = other.meta_.dtype ∧ t.meta_.layout = other.meta_.layout) ∧
    ((SparseCsrTensor.assign h self other).thrown = none ∧
      (SparseCsrTensor.assign h self other).self.non_zero_crows_ = other.non_zero_crows_ ∧
      (SparseCsrTensor.assign h self other).self.non_zero_cols_ = other.non_zero_cols_ ∧
      (SparseCsrTensor.assign h self other).self.non_zero_elements_
        = other.non_zero_elements_ ∧
      (SparseCsrTensor.assign h self other).self.meta_.dims = other.meta_.dims ∧
      (SparseCsrTensor.assign h self other).self.meta_.dtype = other.meta_.dtype ∧
      (SparseCsrTensor.assign h self other).self.meta_.layout = other.meta_.layout) := by
  constructor
  · refine ⟨other, ?_, rfl, rfl, rfl, rfl, rfl, rfl⟩
    unfold SparseCsrTensor.copy_construct
    simp only [set_meta_ok h _ other.meta_ hv]
  · rw [assign_unfold, set_meta_ok h _ other.meta_ hv]
    exact ⟨rfl, rfl, rfl, rfl, rfl, rfl, rfl⟩

/-- Witness for C6, amended: copying the 4 x 4 host container, into a fresh container and over
a default-constructed one. -/
theorem copy_of_valid_witness :
    sparse_csr_tensor_h.valid csr_4x4.meta_ = true ∧
      SparseCsrTensor.copy_construct sparse_csr_tensor_h csr_4x4 = Except.ok csr_4x4 ∧
      (SparseCsrTensor.assign sparse_csr_tensor_h SparseCsrTensor.empty csr_4x4).thrown
        = none ∧
      (SparseCsrTensor.assign sparse_csr_tensor_h SparseCsrTensor.empty
        csr_4x4).self.non_zero_elements_ = values_cpu :=
  ⟨rfl, rfl,
    (copy_of_valid sparse_csr_tensor_h SparseCsrTensor.empty csr_4x4 rfl).2.1,
    (copy_of_valid sparse_csr_tensor_h SparseCsrTensor.empty csr_4x4 rfl).2.2.2.2.1⟩

/-! ## The state left behind by a failed call -/

/-- A failed `Resize`, `SetMember` with a shape, or `set_meta` (either form) leaves the container
as it was before the call. -/
theorem failed_call_unchanged (h : Header) (self : SparseCsrTensor) :
    (∀ dense_dims n, (SparseCsrTensor.Resize h self dense_dims n).thrown ≠ none →
      (SparseCsrTensor.Resize h self dense_dims n).self = self) ∧
    (∀ crows cols elems dims,
      (SparseCsrTensor.SetMember self crows cols elems dims).thrown ≠ none →
      (SparseCsrTensor.SetMember self crows cols elems dims).self = self) ∧
    (∀ m, (SparseCsrTensor.set_meta h self m).thrown ≠ none →
      (SparseCsrTensor.set_meta h self m).self = self) ∧
    (∀ m, (SparseCsrTensor.set_meta_move h self m).thrown ≠ none →
      (SparseCsrTensor.set_meta_move h self m).self = self) := by
  refine ⟨fun dense_dims n hf => ?_, fun crows cols elems dims hf => ?_, fun m hf => ?_,
    fun m hf => ?_⟩
  · by_cases hgood : h.initialized self = true ∧
        (dense_dims.length = 2 ∨ dense_dims.length = 3)
    · rw [Resize_ok h self dense_dims n hgood.1 hgood.2] at hf
      exact absurd rfl hf
    · have hbad : h.initialized self = false ∨
          ¬ (dense_dims.length = 2 ∨ dense_dims.length = 3) := by
        by_cases hi : h.initialized self = true
        · exact Or.inr (fun hr => hgood ⟨hi, hr⟩)
        · exact Or.inl (by simpa using hi)
      rw [Resize_error h self dense_dims n hbad]
  · rcases except_unit_cases (Check crows cols elems dims) with hc | hc
    · rw [SetMember_ok self crows cols elems dims hc] at hf
      exact absurd rfl hf
    · rw [SetMember_error self crows cols elems dims hc]
  · rcases bool_true_or_false (h.valid m) with hv | hv
    · rw [set_meta_ok h self m hv] at hf
      exact absurd rfl hf
    · rw [set_meta_error h self m hv]
  · rcases bool_true_or_false (h.valid self.meta_) with hv | hv
    · rw [set_meta_move_error h self m hv]
    · rw [set_meta_move_ok h self m hv] at hf
      exact absurd rfl hf

/-- C5, at the failing inputs: copy assignment from a default-constructed container onto the
4 x 4 host container throws InvalidArgument after the three buffers have been replaced by the
source's, the metadata being left as it was; `SetMember` with a metadata record whose shape is
4 x 4 and whose element type was never set, on a default-constructed container, throws
InvalidArgument after the three buffers have been replaced by the given ones. -/
theorem failed_call_mutates :
    ((SparseCsrTensor.assign sparse_csr_tensor_h csr_4x4 SparseCsrTensor.empty).thrown
        = some Error.InvalidArgument ∧
      (SparseCsrTensor.assign sparse_csr_tensor_h csr_4x4 SparseCsrTensor.empty).self
        = { SparseCsrTensor.empty with meta_ := csr_4x4.meta_ } ∧
      (SparseCsrTensor.assign sparse_csr_tensor_h csr_4x4 SparseCsrTensor.empty).self
        ≠ csr_4x4) ∧
    ((SparseCsrTensor.SetMember_meta sparse_csr_tensor_h SparseCsrTensor.empty
        crows_cpu cols_cpu values_cpu meta_4x4_untyped).thrown = some Error.InvalidArgument ∧
      (SparseCsrTensor.SetMember_meta sparse_csr_tensor_h SparseCsrTensor.empty
        crows_cpu cols_cpu values_cpu meta_4x4_untyped).self
        = { csr_4x4 with meta_ := SparseCsrTensor.empty.meta_ } ∧
      (SparseCsrTensor.SetMember_meta sparse_csr_tensor_h SparseCsrTensor.empty
        crows_cpu cols_cpu values_cpu meta_4x4_untyped).self ≠ SparseCsrTensor.empty) := by
  refine ⟨⟨rfl, rfl, ?_⟩, ⟨rfl, rfl, ?_⟩⟩
  · decide
  · decide

/-! ## What a successful call tells -/

theorem SetMember_success (self : SparseCsrTensor) (crows cols elems : DenseTensor) (dims : DDim)
    (hok : (SparseCsrTensor.SetMember self crows cols elems dims).thrown = none) :
    Check crows cols elems dims = Except.ok () := by
  rcases except_unit_cases (Check crows cols elems dims) with hc | hc
  · exact hc
  · rw [SetMember_error self crows cols elems dims hc] at hok
    cases hok

theorem SetMember_meta_ok (h : Header) (self : SparseCsrTensor)
    (crows cols elems : DenseTensor) (m : SparseTensorMeta)
    (hc : Check crows cols elems m.dims = Except.ok ()) (hv : h.valid m = true) :
    SparseCsrTensor.SetMember_meta h self crows cols elems m =
      { thrown := none
        self :=
          { non_zero_crows_ := crows
            non_zero_cols_ := cols
            non_zero_elements_ := elems
            meta_ := m } } := by
  rw [SetMember_meta_checked h self crows cols elems m hc, set_meta_ok h _ m hv]

theorem SetMember_meta_invalid (h : Header) (self : SparseCsrTensor)
    (crows cols elems : DenseTensor) (m : SparseTensorMeta)
    (hc : Check crows cols elems m.dims = Except.ok ()) (hv : h.valid m = false) :
    SparseCsrTensor.SetMember_meta h self crows cols elems m =
      { thrown := some Error.InvalidArgument
        self :=
          { non_zero_crows_ := crows
            non_zero_cols_ := cols
            non_zero_elements_ := elems
            meta_ := self.meta_ } } := by
  rw [SetMember_meta_checked h self crows cols elems m hc, set_meta_error h _ m hv]

theorem SetMember_meta_success (h : Header) (self : SparseCsrTensor)
    (crows cols elems : DenseTensor) (m : SparseTensorMeta)
    (hok : (SparseCsrTensor.SetMember_meta h self crows cols elems m).thrown = none) :
    Check crows cols elems m.dims = Except.ok () ∧ h.valid m = true := by
  rcases except_unit_cases (Check crows cols elems m.dims) with hc | hc
  · rcases bool_true_or_false (h.valid m) with hv | hv
    · exact ⟨hc, hv⟩
    · rw [SetMember_meta_invalid h self crows cols elems m hc hv] at hok
      cases hok
  · rw [SetMember_meta_error h self crows cols elems m hc] at hok
    cases hok

theorem Resize_success (h : Header) (self : SparseCsrTensor) (dense_dims : DDim) (n : Int)
    (hok : (SparseCsrTensor.Resize h self dense_dims n).thrown = none) :
    h.initialized self = true ∧ (dense_dims.length = 2 ∨ dense_dims.length = 3) := by
  by_cases hgood : h.initialized self = true ∧ (dense_dims.length = 2 ∨ dense_dims.length = 3)
  · exact hgood
  · have hbad : h.initialized self = false ∨
        ¬ (dense_dims.length = 2 ∨ dense_dims.length = 3) := by
      by_cases hi : h.initialized self = true
      · exact Or.inr (fun hr => hgood ⟨hi, hr⟩)
      · exact Or.inl (by simpa using hi)
    rw [Resize_error h self dense_dims n hbad] at hok
    cases hok

theorem set_meta_success (h : Header) (self : SparseCsrTensor) (m : SparseTensorMeta)
    (hok : (SparseCsrTensor.set_meta h self m).thrown = none) : h.valid m = true := by
  rcases bool_true_or_false (h.valid m) with hv | hv
  · exact hv
  · rw [set_meta_error h self m hv] at hok
    cases hok

theorem set_meta_move_success (h : Header) (self : SparseCsrTensor) (m : SparseTensorMeta)
    (hok : (SparseCsrTensor.set_meta_move h self m).thrown = none) :
    h.valid self.meta_ = false := by
  rcases bool_true_or_false (h.valid self.meta_) with hv | hv
  · rw [set_meta_move_error h self m hv] at hok
    cases hok
  · exact hv

theorem assign_ok (h : Header) (self other : SparseCsrTensor)
    (hv : h.valid other.meta_ = true) :
    SparseCsrTensor.assign h self other = { thrown := none, self := other } := by
  rw [assign_unfold, set_meta_ok h _ other.meta_ hv]

theorem assign_success (h : Header) (self other : SparseCsrTensor)
    (hok : (SparseCsrTensor.assign h self other).thrown = none) :
    h.valid other.meta_ = true := by
  rw [assign_unfold] at hok
  exact set_meta_success h _ other.meta_ hok

theorem copy_construct_success (h : Header) (other t : SparseCsrTensor)
    (hok : SparseCsrTensor.copy_construct h other = Except.ok t) :
    h.valid other.meta_ = true ∧ t = other := by
  unfold SparseCsrTensor.copy_construct at hok
  rcases bool_true_or_false (h.valid other.meta_) with hv | hv
  · simp only [set_meta_ok h _ other.meta_ hv] at hok
    cases hok
    exact ⟨hv, rfl⟩
  · simp only [set_meta_error h _ other.meta_ hv] at hok
    cases hok

/-! ## SetMember -/

/-- C11: `SetMember` with a shape fails with InvalidArgument exactly when the rank of `dims` is
not 2 or 3 or the placements of the given buffers differ, whether or not `row_offsets` is
initialized; when it succeeds the container holds exactly the three given buffers, `meta.dims`
equals `dims`, and `meta.dtype` and `meta.layout` are unchanged. -/
theorem SetMember_spec (self : SparseCsrTensor) (crows cols elems : DenseTensor) (dims : DDim) :
    ((SparseCsrTensor.SetMember self crows cols elems dims).thrown = some Error.InvalidArgument ↔
      (¬ (dims.length = 2 ∨ dims.length = 3) ∨ crows.place ≠ cols.place ∨
        cols.place ≠ elems.place)) ∧
    ((SparseCsrTensor.SetMember self crows cols elems dims).thrown = none ↔
      ((dims.length = 2 ∨ dims.length = 3) ∧ crows.place = cols.place ∧
        cols.place = elems.place)) ∧
    ((SparseCsrTensor.SetMember self crows cols elems dims).thrown = none →
      (SparseCsrTensor.SetMember self crows cols elems dims).self.non_zero_crows_ = crows ∧
      (SparseCsrTensor.SetMember self crows cols elems dims).self.non_zero_cols_ = cols ∧
      (SparseCsrTensor.SetMember self crows cols elems dims).self.non_zero_elements_ = elems ∧
      (SparseCsrTensor.SetMember self crows cols elems dims).self.meta_.dims = dims ∧
      (SparseCsrTensor.SetMember self crows cols elems dims).self.meta_.dtype
        = self.meta_.dtype ∧
      (SparseCsrTensor.SetMember self crows cols elems dims).self.meta_.layout
        = self.meta_.layout) := by
  rcases except_unit_cases (Check crows cols elems dims) with hc | hc
  · have hk := (Check_ok_iff crows cols elems dims).1 hc
    rw [SetMember_ok self crows cols elems dims hc]
    refine ⟨⟨fun hf => (by cases hf), ?_⟩, ⟨fun _ => ⟨hk.1, hk.2.1.symm, hk.2.2⟩, fun _ => rfl⟩,
      fun _ => ⟨rfl, rfl, rfl, rfl, rfl, rfl⟩⟩
    rintro (hr | hp | hp)
    · exact absurd hk.1 hr
    · exact absurd hk.2.1.symm hp
    · exact absurd hk.2.2 hp
  · have hk := (Check_error_iff crows cols elems dims).1 hc
    rw [SetMember_error self crows cols elems dims hc]
    refine ⟨⟨fun _ => ?_, fun _ => rfl⟩, ⟨fun hf => (by cases hf), fun hg => ?_⟩,
      fun hf => (by cases hf)⟩
    · by_cases hr : dims.length = 2 ∨ dims.length = 3
      · by_cases hp : crows.place = cols.place
        · right
          right
          intro hq
          exact hk ⟨hr, hp.symm, hq⟩
        · exact Or.inr (Or.inl hp)
      · exact Or.inl hr
    · exact absurd ⟨hg.1, hg.2.1.symm, hg.2.2⟩ hk

/-- Witness for C11: buffers with an unallocated `row_offsets` are installed in a container
whose element type is FLOAT64; the element type stays FLOAT64 although `values` holds
FLOAT32. -/
theorem SetMember_spec_witness :
    (SparseCsrTensor.SetMember { meta_ := meta_2x4x4_f64 } crows_unallocated cols_cpu values_cpu
        [4, 4]).self
      = { non_zero_crows_ := crows_unallocated
          non_zero_cols_ := cols_cpu
          non_zero_elements_ := values_cpu
          meta_ := { dims := [4, 4], dtype := DataType.FLOAT64,
                     layout := DataLayout.SPARSE_CSR } } ∧
      (SparseCsrTensor.SetMember { meta_ := meta_2x4x4_f64 } crows_unallocated cols_cpu values_cpu
        [4, 4]).self.meta_.dtype = DataType.FLOAT64 :=
  ⟨rfl, ((SetMember_spec { meta_ := meta_2x4x4_f64 } crows_unallocated cols_cpu values_cpu
    [4, 4]).2.2 rfl).2.2.2.2.1⟩

/-- C12: `SetMember` with a metadata record fails with InvalidArgument exactly when the rank of
`meta.dims` is not 2 or 3, or the placements of the given buffers differ, or the record is
invalid; when it succeeds the container holds exactly the three given buffers and its dims,
dtype and layout equal those of the record. -/
theorem SetMember_meta_spec (h : Header) (self : SparseCsrTensor)
    (crows cols elems : DenseTensor) (m : SparseTensorMeta) :
    ((SparseCsrTensor.SetMember_meta h self crows cols elems m).thrown
        = some Error.InvalidArgument ↔
      (¬ (m.dims.length = 2 ∨ m.dims.length = 3) ∨ crows.place ≠ cols.place ∨
        cols.place ≠ elems.place ∨ h.valid m = false)) ∧
    ((SparseCsrTensor.SetMember_meta h self crows cols elems m).thrown = none ↔
      ((m.dims.length = 2 ∨ m.dims.length = 3) ∧ crows.place = cols.place ∧
        cols.place = elems.place ∧ h.valid m = true)) ∧
    ((SparseCsrTensor.SetMember_meta h self crows cols elems m).thrown = none →
      (SparseCsrTensor.SetMember_meta h self crows cols elems m).self.non_zero_crows_ = crows ∧
      (SparseCsrTensor.SetMember_meta h self crows cols elems m).self.non_zero_cols_ = cols ∧
      (SparseCsrTensor.SetMember_meta h self crows cols elems m).self.non_zero_elements_
        = elems ∧
      (SparseCsrTensor.SetMember_meta h self crows cols elems m).self.meta_.dims = m.dims ∧
      (SparseCsrTensor.SetMember_meta h self crows cols elems m).self.meta_.dtype = m.dtype ∧
      (SparseCsrTensor.SetMember_meta h self crows cols elems m).self.meta_.layout
        = m.layout) := by
  rcases except_unit_cases (Check crows cols elems m.dims) with hc | hc
  · have hk := (Check_ok_iff crows cols elems m.dims).1 hc
    rcases bool_true_or_false (h.valid m) with hv | hv
    · rw [SetMember_meta_ok h self crows cols elems m hc hv]
      refine ⟨⟨fun hf => (by cases hf), ?_⟩,
        ⟨fun _ => ⟨hk.1, hk.2.1.symm, hk.2.2, hv⟩, fun _ => rfl⟩,
        fun _ => ⟨rfl, rfl, rfl, rfl, rfl, rfl⟩⟩
      rintro (hr | hp | hp | hi)
      · exact absurd hk.1 hr
      · exact absurd hk.2.1.symm hp
      · exact absurd hk.2.2 hp
      · rw [hv] at hi
        cases hi
    · rw [SetMember_meta_invalid h self crows cols elems m hc hv]
      refine ⟨⟨fun _ => Or.inr (Or.inr (Or.inr hv)), fun _ => rfl⟩,
        ⟨fun hf => (by cases hf), fun hg => ?_⟩, fun hf => (by cases hf)⟩
      rw [hv] at hg
      cases hg.2.2.2
  · have hk := (Check_error_iff crows cols elems m.dims).1 hc
    rw [SetMember_meta_error h self crows cols elems m hc]
    refine ⟨⟨fun _ => ?_, fun _ => rfl⟩, ⟨fun hf => (by cases hf), fun hg => ?_⟩,
      fun hf => (by cases hf)⟩
    · by_cases hr : m.dims.length = 2 ∨ m.dims.length = 3
      · by_cases hp : crows.place = cols.place
        · right
          right
          left
          intro hq
          exact hk ⟨hr, hp.symm, hq⟩
        · exact Or.inr (Or.inl hp)
      · exact Or.inl hr
    · exact absurd ⟨hg.1, hg.2.1.symm, hg.2.2.1⟩ hk

/-- Witness for C12: the host buffers and the batched double-precision record are installed
in a default-constructed container. -/
theorem SetMember_meta_spec_witness :
    (SparseCsrTensor.SetMember_meta sparse_csr_tensor_h SparseCsrTensor.empty
        crows_cpu cols_cpu values_cpu meta_2x4x4_f64).thrown = none ∧
      (SparseCsrTensor.SetMember_meta sparse_csr_tensor_h SparseCsrTensor.empty
        crows_cpu cols_cpu values_cpu meta_2x4x4_f64).self.non_zero_elements_ = values_cpu ∧
      (SparseCsrTensor.SetMember_meta sparse_csr_tensor_h SparseCsrTensor.empty
        crows_cpu cols_cpu values_cpu meta_2x4x4_f64).self.meta_.dims = [2, 4, 4] :=
  ⟨rfl,
    ((SetMember_meta_spec sparse_csr_tensor_h SparseCsrTensor.empty
      crows_cpu cols_cpu values_cpu meta_2x4x4_f64).2.2 rfl).2.2.1,
    ((SetMember_meta_spec sparse_csr_tensor_h SparseCsrTensor.empty
      crows_cpu cols_cpu values_cpu meta_2x4x4_f64).2.2 rfl).2.2.2.1⟩

/-! ## Invariants over the histories of a container -/

theorem construct_success (crows cols elems : DenseTensor) (dims : DDim) (t : SparseCsrTensor)
    (hok : SparseCsrTensor.construct crows cols elems dims = Except.ok t) :
    t = { non_zero_crows_ := crows
          non_zero_cols_ := cols
          non_zero_elements_ := elems
          meta_ := { dims := dims, dtype := elems.dtype, layout := DataLayout.NCHW } } ∧
      (dims.length = 2 ∨ dims.length = 3) ∧
      (crows.initialized = true → cols.place = crows.place ∧ cols.place = elems.place) := by
  rw [construct_unfold] at hok
  by_cases hi : crows.initialized = true
  · rw [if_pos hi] at hok
    rcases except_unit_cases (Check crows cols elems dims) with hc | hc
    · rw [hc] at hok
      have hk := (Check_ok_iff crows cols elems dims).1 hc
      cases hok
      exact ⟨rfl, hk.1, fun _ => hk.2⟩
    · rw [hc] at hok
      cases hok
  · rw [if_neg hi] at hok
    rcases except_unit_cases (check_shape dims) with hc | hc
    · rw [hc] at hok
      cases hok
      exact ⟨rfl, (check_shape_ok_iff dims).1 hc, fun hj => absurd hj hi⟩
    · rw [hc] at hok
      cases hok

theorem numel_singleton (t : DenseTensor) (n : Int) :
    DenseTensor.numel { t with dims := [n] } = n := by
  simp [DenseTensor.numel]

/-- Counterexample to C13: construction from a `column_indices` of length 6 and a `values` of
length 7 succeeds, and so does `SetMember` with the same buffers on the resulting container;
the two lengths differ in both containers. -/
theorem lengths_agree_counterexample :
    SparseCsrTensor.construct crows_cpu cols_cpu values_cpu_7 [4, 4] = Except.ok csr_uneven ∧
      csr_uneven.non_zero_cols_.length = 6 ∧ csr_uneven.non_zero_elements_.length = 7 ∧
      (SparseCsrTensor.SetMember csr_4x4 crows_cpu cols_cpu values_cpu_7 [4, 4]).thrown
        = none ∧
      (SparseCsrTensor.SetMember csr_4x4 crows_cpu cols_cpu values_cpu_7
        [4, 4]).self.non_zero_cols_.length
        ≠ (SparseCsrTensor.SetMember csr_4x4 crows_cpu cols_cpu values_cpu_7
            [4, 4]).self.non_zero_elements_.length := by
  refine ⟨rfl, ?_, ?_, rfl, ?_⟩
  · decide
  · decide
  · decide

/-- C13, amended: in every container obtained by default construction or a successful
construction from components followed by any sequence of successful operations (`SetMember`,
`Resize`, `set_meta`, `set_type`, `set_layout`, copy), provided every construction and every
`SetMember` call is given `column_indices` and `values` buffers of equal length, the length of
`column_indices` equals the length of `values`. The length of a buffer is its number of
entries, one per stored element, whether an entry is a scalar or a dense block. -/
theorem lengths_agree (h : Header) (t : SparseCsrTensor)
    (ht : Obtained h equal_lengths_given equal_lengths_call t) :
    t.non_zero_cols_.length = t.non_zero_elements_.length := by
  induction ht with
  | default_constructed => rfl
  | constructed crows cols elems dims t hg hok =>
    rw [(construct_success crows cols elems dims t hok).1]
    exact hg
  | copy_constructed s t _ hok ih =>
    rw [(copy_construct_success h s t hok).2]
    exact ih
  | assigned s other _ _ hok _ iho =>
    rw [assign_ok h s other (assign_success h s other hok)]
    exact iho
  | called s c _ hc hok ih =>
    cases c with
    | SetMember crows cols elems dims =>
      simp only [Call.run] at hok ⊢
      rw [SetMember_ok s crows cols elems dims (SetMember_success s crows cols elems dims hok)]
      exact hc
    | SetMember_meta crows cols elems m =>
      simp only [Call.run] at hok ⊢
      have hs := SetMember_meta_success h s crows cols elems m hok
      rw [SetMember_meta_ok h s crows cols elems m hs.1 hs.2]
      exact hc
    | Resize dense_dims n =>
      simp only [Call.run] at hok ⊢
      have hs := Resize_success h s dense_dims n hok
      rw [Resize_ok h s dense_dims n hs.1 hs.2]
      rfl
    | set_meta m =>
      simp only [Call.run] at hok ⊢
      rw [set_meta_ok h s m (set_meta_success h s m hok)]
      exact ih
    | set_meta_move m =>
      simp only [Call.run] at hok ⊢
      rw [set_meta_move_ok h s m (set_meta_move_success h s m hok)]
      exact ih
    | set_type dtype => exact ih
    | set_layout layout => exact ih

/-- Witness for C13, amended: the container of 2 x 2 blocks, constructed from six column
indices and six blocks, and the same container resized for 9 stored elements. -/
theorem lengths_agree_witness :
    (cols_cpu.length = 6 ∧ values_blocks.length = 6 ∧
      csr_blocks.non_zero_cols_.length = csr_blocks.non_zero_elements_.length) ∧
    (SparseCsrTensor.Resize sparse_csr_tensor_h csr_blocks [4, 4] 9).self.non_zero_cols_.length
      = (SparseCsrTensor.Resize sparse_csr_tensor_h csr_blocks
          [4, 4] 9).self.non_zero_elements_.length :=
  ⟨⟨rfl, rfl,
      lengths_agree sparse_csr_tensor_h csr_blocks
        (Obtained.constructed crows_cpu cols_cpu values_blocks [4, 4] csr_blocks rfl rfl)⟩,
    lengths_agree sparse_csr_tensor_h _
      (Obtained.called csr_blocks (Call.Resize [4, 4] 9)
        (Obtained.constructed crows_cpu cols_cpu values_blocks [4, 4] csr_blocks rfl rfl)
        trivial rfl)⟩

/-- Counterexample to C14: construction from a `row_offsets` of length 5 and the shape 7 x 7
succeeds; on the 4 x 4 container, whose `row_offsets` has length 5, `Resize([2,4,4], 6)`
succeeds and leaves a `row_offsets` of length 10 beside `meta.dims = [4,4]`, and `set_meta`
with a 2 x 4 x 4 record succeeds and leaves the `row_offsets` of length 5 beside
`meta.dims = [2,4,4]`. -/
theorem crows_in_step_counterexample :
    (SparseCsrTensor.construct crows_cpu cols_cpu values_cpu [7, 7] = Except.ok csr_7x7 ∧
      csr_7x7.meta_.dims.length = 2 ∧
      csr_7x7.non_zero_crows_.numel ≠ csr_7x7.meta_.dims.getD 0 0 + 1) ∧
    ((SparseCsrTensor.Resize sparse_csr_tensor_h csr_4x4 [2, 4, 4] 6).thrown = none ∧
      (SparseCsrTensor.Resize sparse_csr_tensor_h csr_4x4 [2, 4, 4] 6).self.meta_.dims.length
        = 2 ∧
      (SparseCsrTensor.Resize sparse_csr_tensor_h csr_4x4
          [2, 4, 4] 6).self.non_zero_crows_.numel
        ≠ (SparseCsrTensor.Resize sparse_csr_tensor_h csr_4x4
            [2, 4, 4] 6).self.meta_.dims.getD 0 0 + 1) ∧
    ((SparseCsrTensor.set_meta sparse_csr_tensor_h csr_4x4 meta_2x4x4_f64).thrown = none ∧
      (SparseCsrTensor.set_meta sparse_csr_tensor_h csr_4x4
          meta_2x4x4_f64).self.meta_.dims.length = 3 ∧
      (SparseCsrTensor.set_meta sparse_csr_tensor_h csr_4x4
          meta_2x4x4_f64).self.non_zero_crows_.numel
        ≠ (SparseCsrTensor.set_meta sparse_csr_tensor_h csr_4x4
              meta_2x4x4_f64).self.meta_.dims.getD 0 0
          * ((SparseCsrTensor.set_meta sparse_csr_tensor_h csr_4x4
              meta_2x4x4_f64).self.meta_.dims.getD 1 0 + 1)) := by
  refine ⟨⟨rfl, rfl, ?_⟩, ⟨rfl, rfl, ?_⟩, ⟨rfl, rfl, ?_⟩⟩
  · decide
  · decide
  · decide

/-- C14, amended: in every container obtained by default construction or a successful
construction from components followed by any sequence of successful operations (`SetMember`,
`Resize`, `set_meta`, `set_type`, `set_layout`, copy), provided every construction and every
`SetMember` call is given a `row_offsets` buffer of the length its shape requires, every
`Resize` is called with `dense_dims` equal to the current `meta.dims`, and every `set_meta`
keeps `meta.dims`, the length of `row_offsets` equals `meta.dims[0] + 1` when `meta.dims` has
rank 2 and `meta.dims[0] * (meta.dims[1] + 1)` when it has rank 3 (int64 arithmetic). -/
theorem crows_in_step (h : Header) (t : SparseCsrTensor)
    (ht : Obtained h in_step_given in_step_call t) :
    (t.meta_.dims.length = 2 →
      t.non_zero_crows_.numel = wrap_int64 (t.meta_.dims.getD 0 0 + 1)) ∧
    (t.meta_.dims.length = 3 →
      t.non_zero_crows_.numel
        = wrap_int64 (t.meta_.dims.getD 0 0 * wrap_int64 (t.meta_.dims.getD 1 0 + 1))) := by
  have key : crows_matches t.non_zero_crows_ t.meta_.dims := by
    induction ht with
    | default_constructed =>
      intro hr
      rcases hr with hr | hr
      · exact absurd hr (by decide)
      · exact absurd hr (by decide)
    | constructed crows cols elems dims t hg hok =>
      rw [(construct_success crows cols elems dims t hok).1]
      exact hg
    | copy_constructed s t _ hok ih =>
      rw [(copy_construct_success h s t hok).2]
      exact ih
    | assigned s other _ _ hok _ iho =>
      rw [assign_ok h s other (assign_success h s other hok)]
      exact iho
    | called s c _ hc hok ih =>
      cases c with
      | SetMember crows cols elems dims =>
        simp only [Call.run] at hok ⊢
        rw [SetMember_ok s crows cols elems dims (SetMember_success s crows cols elems dims hok)]
        exact hc
      | SetMember_meta crows cols elems m =>
        simp only [Call.run] at hok ⊢
        have hs := SetMember_meta_success h s crows cols elems m hok
        rw [SetMember_meta_ok h s crows cols elems m hs.1 hs.2]
        exact hc
      | Resize dense_dims n =>
        simp only [Call.run] at hok ⊢
        have hs := Resize_success h s dense_dims n hok
        rw [Resize_ok h s dense_dims n hs.1 hs.2]
        have hd : dense_dims = s.meta_.dims := hc
        intro _
        show DenseTensor.numel { s.non_zero_crows_ with dims := [crows_size dense_dims] }
          = crows_size s.meta_.dims
        rw [numel_singleton, hd]
      | set_meta m =>
        simp only [Call.run] at hok ⊢
        rw [set_meta_ok h s m (set_meta_success h s m hok)]
        have hd : m.dims = s.meta_.dims := hc
        show crows_matches s.non_zero_crows_ m.dims
        rw [hd]
        exact ih
      | set_meta_move m =>
        simp only [Call.run] at hok ⊢
        rw [set_meta_move_ok h s m (set_meta_move_success h s m hok)]
        have hd : m.dims = s.meta_.dims := hc
        show crows_matches s.non_zero_crows_ m.dims
        rw [hd]
        exact ih
      | set_type dtype => exact ih
      | set_layout layout => exact ih
  constructor
  · intro h2
    rw [key (Or.inl h2)]
    unfold crows_size
    rw [if_neg (by omega)]
  · intro h3
    rw [key (Or.inr h3)]
    unfold crows_size
    rw [if_pos h3]

/-- Witness for C14, amended: the 4 x 4 host container, constructed with a `row_offsets` of
length 5 and resized with its own logical shape. -/
theorem crows_in_step_witness :
    (SparseCsrTensor.Resize sparse_csr_tensor_h csr_4x4 [4, 4] 9).self.non_zero_crows_.numel
      = wrap_int64
          ((SparseCsrTensor.Resize sparse_csr_tensor_h csr_4x4
            [4, 4] 9).self.meta_.dims.getD 0 0 + 1) :=
  (crows_in_step sparse_csr_tensor_h _
    (Obtained.called csr_4x4 (Call.Resize [4, 4] 9)
      (Obtained.constructed crows_cpu cols_cpu values_cpu [4, 4] csr_4x4 (fun _ => by decide)
        rfl) rfl rfl)).1 rfl

/-- C15: in every container obtained by default construction or a successful construction from
components followed by any sequence of successful `SetMember`, `Resize`, `set_meta`,
`set_type`, `set_layout` and copy calls (between containers likewise obtained), if all three
buffers are initialized then `row_offsets`, `column_indices` and `values` have the same
placement. -/
theorem same_place (h : Header) (t : SparseCsrTensor)
    (ht : Obtained h any_given any_call t)
    (hinit : t.non_zero_crows_.initialized = true ∧ t.non_zero_cols_.initialized = true ∧
      t.non_zero_elements_.initialized = true) :
    t.non_zero_crows_.place = t.non_zero_cols_.place ∧
      t.non_zero_cols_.place = t.non_zero_elements_.place := by
  have key : t.non_zero_crows_.initialized = true →
      t.non_zero_cols_.place = t.non_zero_crows_.place ∧
        t.non_zero_cols_.place = t.non_zero_elements_.place := by
    clear hinit
    induction ht with
    | default_constructed =>
      intro hi
      exact absurd hi (by decide)
    | constructed crows cols elems dims t _ hok =>
      rw [(construct_success crows cols elems dims t hok).1]
      exact (construct_success crows cols elems dims t hok).2.2
    | copy_constructed s t _ hok ih =>
      rw [(copy_construct_success h s t hok).2]
      exact ih
    | assigned s other _ _ hok _ iho =>
      rw [assign_ok h s other (assign_success h s other hok)]
      exact iho
    | called s c _ _ hok ih =>
      cases c with
      | SetMember crows cols elems dims =>
        simp only [Call.run] at hok ⊢
        have hc := SetMember_success s crows cols elems dims hok
        rw [SetMember_ok s crows cols elems dims hc]
        exact fun _ => ((Check_ok_iff crows cols elems dims).1 hc).2
      | SetMember_meta crows cols elems m =>
        simp only [Call.run] at hok ⊢
        have hs := SetMember_meta_success h s crows cols elems m hok
        rw [SetMember_meta_ok h s crows cols elems m hs.1 hs.2]
        exact fun _ => ((Check_ok_iff crows cols elems m.dims).1 hs.1).2
      | Resize dense_dims n =>
        simp only [Call.run] at hok ⊢
        have hs := Resize_success h s dense_dims n hok
        rw [Resize_ok h s dense_dims n hs.1 hs.2]
        exact ih
      | set_meta m =>
        simp only [Call.run] at hok ⊢
        rw [set_meta_ok h s m (set_meta_success h s m hok)]
        exact ih
      | set_meta_move m =>
        simp only [Call.run] at hok ⊢
        rw [set_meta_move_ok h s m (set_meta_move_success h s m hok)]
        exact ih
      | set_type dtype => exact ih
      | set_layout layout => exact ih
  exact ⟨(key hinit.1).1.symm, (key hinit.1).2⟩

/-- Witness for C15: the three host buffers installed by `SetMember` in a default-constructed
container. -/
theorem same_place_witness :
    (SparseCsrTensor.SetMember SparseCsrTensor.empty crows_cpu cols_cpu values_cpu
        [4, 4]).self.non_zero_crows_.place
      = (SparseCsrTensor.SetMember SparseCsrTensor.empty crows_cpu cols_cpu values_cpu
          [4, 4]).self.non_zero_cols_.place ∧
    (SparseCsrTensor.SetMember SparseCsrTensor.empty crows_cpu cols_cpu values_cpu
        [4, 4]).self.non_zero_cols_.place
      = (SparseCsrTensor.SetMember SparseCsrTensor.empty crows_cpu cols_cpu values_cpu
          [4, 4]).self.non_zero_elements_.place :=
  same_place sparse_csr_tensor_h _
    (Obtained.called SparseCsrTensor.empty (Call.SetMember crows_cpu cols_cpu values_cpu [4, 4])
      Obtained.default_constructed trivial rfl) ⟨rfl, rfl, rfl⟩

/-! ## The validity of the metadata after binding -/

/-- What the metadata of a freshly bound container is, for every validity predicate: after a
successful construction from components it is valid exactly when the record made of `dims`,
`values.dtype()` and NCHW is; after a successful `SetMember` with a shape on a
default-constructed container it is valid exactly when the default record with that shape is;
after a successful `SetMember` with a metadata record on a default-constructed container it is
valid. -/
theorem validity_after_binding (h : Header) (crows cols elems : DenseTensor) (dims : DDim)
    (m : SparseTensorMeta) (t : SparseCsrTensor) :
    (SparseCsrTensor.construct crows cols elems dims = Except.ok t →
      h.valid t.meta_
        = h.valid { dims := dims, dtype := elems.dtype, layout := DataLayout.NCHW }) ∧
    ((SparseCsrTensor.SetMember SparseCsrTensor.empty crows cols elems dims).thrown = none →
      h.valid (SparseCsrTensor.SetMember SparseCsrTensor.empty crows cols elems dims).self.meta_
        = h.valid { dims := dims }) ∧
    ((SparseCsrTensor.SetMember_meta h SparseCsrTensor.empty crows cols elems m).thrown = none →
      h.valid (SparseCsrTensor.SetMember_meta h SparseCsrTensor.empty crows cols elems
        m).self.meta_ = true) := by
  refine ⟨fun hok => ?_, fun hok => ?_, fun hok => ?_⟩
  · rw [(construct_success crows cols elems dims t hok).1]
  · rw [SetMember_ok SparseCsrTensor.empty crows cols elems dims
      (SetMember_success SparseCsrTensor.empty crows cols elems dims hok)]
    rfl
  · have hs := SetMember_meta_success h SparseCsrTensor.empty crows cols elems m hok
    rw [SetMember_meta_ok h SparseCsrTensor.empty crows cols elems m hs.1 hs.2]
    exact hs.2

/-- Whether a construction from components, or a `SetMember` with a shape on a
default-constructed container, leaves valid metadata is decided by the validity predicate and
not by the source file: for the construction from three default buffers with the shape 4 x 4,
and for `SetMember` with the host buffers and the shape 4 x 4, the metadata is invalid when
validity means a defined dtype and layout, and valid when it means a shape of rank 2 or 3. Both
predicates call a default record invalid. -/
theorem validity_after_binding_undetermined :
    (SparseCsrTensor.construct {} {} {} [4, 4]
        = Except.ok { meta_ := { dims := [4, 4], dtype := DataType.UNDEFINED,
                                 layout := DataLayout.NCHW } } ∧
      sparse_csr_tensor_h.valid
        { dims := [4, 4], dtype := DataType.UNDEFINED, layout := DataLayout.NCHW } = false ∧
      shape_valid_h.valid
        { dims := [4, 4], dtype := DataType.UNDEFINED, layout := DataLayout.NCHW } = true) ∧
    ((SparseCsrTensor.SetMember SparseCsrTensor.empty crows_cpu cols_cpu values_cpu
        [4, 4]).thrown = none ∧
      sparse_csr_tensor_h.valid
        (SparseCsrTensor.SetMember SparseCsrTensor.empty crows_cpu cols_cpu values_cpu
          [4, 4]).self.meta_ = false ∧
      shape_valid_h.valid
        (SparseCsrTensor.SetMember SparseCsrTensor.empty crows_cpu cols_cpu values_cpu
          [4, 4]).self.meta_ = true) := by
  exact ⟨⟨rfl, rfl, rfl⟩, ⟨rfl, rfl, rfl⟩⟩

/-- When validity means a shape of rank 2 or 3, every successful construction from components
and every successful `SetMember` on a default-constructed container leaves valid metadata. -/
theorem validity_after_binding_by_shape (crows cols elems : DenseTensor) (dims : DDim)
    (m : SparseTensorMeta) (t : SparseCsrTensor) :
    (SparseCsrTensor.construct crows cols elems dims = Except.ok t →
      shape_valid_h.valid t.meta_ = true) ∧
    ((SparseCsrTensor.SetMember SparseCsrTensor.empty crows cols elems dims).thrown = none →
      shape_valid_h.valid
        (SparseCsrTensor.SetMember SparseCsrTensor.empty crows cols elems dims).self.meta_
        = true) ∧
    ((SparseCsrTensor.SetMember_meta shape_valid_h SparseCsrTensor.empty crows cols elems
        m).thrown = none →
      shape_valid_h.valid
        (SparseCsrTensor.SetMember_meta shape_valid_h SparseCsrTensor.empty crows cols elems
          m).self.meta_ = true) := by
  refine ⟨fun hok => ?_, fun hok => ?_, fun hok => ?_⟩
  · have hs := construct_success crows cols elems dims t hok
    rw [hs.1]
    rcases hs.2.1 with hr | hr
    · simp [shape_valid_h, hr]
    · simp [shape_valid_h, hr]
  · have hc := SetMember_success SparseCsrTensor.empty crows cols elems dims hok
    have hk := (Check_ok_iff crows cols elems dims).1 hc
    rw [SetMember_ok SparseCsrTensor.empty crows cols elems dims hc]
    rcases hk.1 with hr | hr
    · simp [shape_valid_h, hr]
    · simp [shape_valid_h, hr]
  · have hs := SetMember_meta_success shape_valid_h SparseCsrTensor.empty crows cols elems m hok
    rw [SetMember_meta_ok shape_valid_h SparseCsrTensor.empty crows cols elems m hs.1 hs.2]
    exact hs.2

/-! ## Rank queries and setters -/

theorem dense_dim_of_ranks (self : SparseCsrTensor) :
    SparseCsrTensor.dense_dim self =
      wrap_int32 ((self.non_zero_elements_.dims.length : Int)
        - (self.non_zero_crows_.dims.length : Int)) := by
  unfold SparseCsrTensor.dense_dim wrap_int32
  dsimp only
  omega

/-- C17: `dense_dim()` is `rank(values) - (rank(row_offsets) - 1) - 0 - 1`, that is
`rank(values) - rank(row_offsets)`, in int32 arithmetic (the exact value whenever the ranks fit
in 32 bits), where the ranks are those of the buffers' own shapes; it does not depend on the
metadata record. -/
theorem dense_dim_spec (self : SparseCsrTensor) :
    SparseCsrTensor.dense_dim self =
      wrap_int32 ((self.non_zero_elements_.dims.length : Int)
        - ((self.non_zero_crows_.dims.length : Int) - 1) - 0 - 1) ∧
    SparseCsrTensor.dense_dim self =
      wrap_int32 ((self.non_zero_elements_.dims.length : Int)
        - (self.non_zero_crows_.dims.length : Int)) ∧
    (self.non_zero_elements_.dims.length < 2 ^ 31 → self.non_zero_crows_.dims.length < 2 ^ 31 →
      SparseCsrTensor.dense_dim self =
        (self.non_zero_elements_.dims.length : Int)
          - ((self.non_zero_crows_.dims.length : Int) - 1) - 0 - 1 ∧
      SparseCsrTensor.dense_dim self =
        (self.non_zero_elements_.dims.length : Int)
          - (self.non_zero_crows_.dims.length : Int)) ∧
    (∀ m : SparseTensorMeta,
      SparseCsrTensor.dense_dim { self with meta_ := m } = SparseCsrTensor.dense_dim self) := by
  refine ⟨?_, dense_dim_of_ranks self, fun hv hc => ?_, fun m => rfl⟩
  · rw [dense_dim_of_ranks]
    congr 1
    omega
  · rw [dense_dim_of_ranks]
    unfold wrap_int32
    constructor <;> omega

/-- Witness for C17: a container whose `values` has rank 3 and whose `row_offsets` has rank 1
has two dense dimensions. -/
theorem dense_dim_spec_witness :
    SparseCsrTensor.dense_dim csr_blocks = 2 :=
  ((dense_dim_spec csr_blocks).2.2.1 (by decide) (by decide)).2

/-- C18: `set_type` always succeeds and changes only `meta.dtype`, which becomes the given
dtype; `set_layout` always succeeds and changes only `meta.layout`, which becomes the given
layout; the other metadata fields and the three buffers are unchanged. -/
theorem set_type_set_layout_spec (self : SparseCsrTensor) (dtype : DataType)
    (layout : DataLayout) :
    ((SparseCsrTensor.set_type self dtype).thrown = none ∧
      (SparseCsrTensor.set_type self dtype).self.meta_.dtype = dtype ∧
      (SparseCsrTensor.set_type self dtype).self.meta_.dims = self.meta_.dims ∧
      (SparseCsrTensor.set_type self dtype).self.meta_.layout = self.meta_.layout ∧
      (SparseCsrTensor.set_type self dtype).self.non_zero_crows_ = self.non_zero_crows_ ∧
      (SparseCsrTensor.set_type self dtype).self.non_zero_cols_ = self.non_zero_cols_ ∧
      (SparseCsrTensor.set_type self dtype).self.non_zero_elements_
        = self.non_zero_elements_) ∧
    ((SparseCsrTensor.set_layout self layout).thrown = none ∧
      (SparseCsrTensor.set_layout self layout).self.meta_.layout = layout ∧
      (SparseCsrTensor.set_layout self layout).self.meta_.dims = self.meta_.dims ∧
      (SparseCsrTensor.set_layout self layout).self.meta_.dtype = self.meta_.dtype ∧
      (SparseCsrTensor.set_layout self layout).self.non_zero_crows_ = self.non_zero_crows_ ∧
      (SparseCsrTensor.set_layout self layout).self.non_zero_cols_ = self.non_zero_cols_ ∧
      (SparseCsrTensor.set_layout self layout).self.non_zero_elements_
        = self.non_zero_elements_) := by
  unfold SparseCsrTensor.set_type SparseCsrTensor.set_layout
  exact ⟨⟨rfl, rfl, rfl, rfl, rfl, rfl, rfl⟩, ⟨rfl, rfl, rfl, rfl, rfl, rfl, rfl⟩⟩

/-- C19: `sparse_dim()` returns 2 for every container: a default-constructed one, one
constructed from components, a copy, and the container left by any call. -/
theorem sparse_dim_spec (h : Header) (self other : SparseCsrTensor) (c : Call) :
    SparseCsrTensor.sparse_dim self = 2 ∧
      SparseCsrTensor.sparse_dim SparseCsrTensor.empty = 2 ∧
      SparseCsrTensor.sparse_dim (c.run h self).self = 2 ∧
      SparseCsrTensor.sparse_dim (SparseCsrTensor.assign h self other).self = 2 := by
  unfold SparseCsrTensor.sparse_dim
  exact ⟨rfl, rfl, rfl, rfl⟩

/-- C20: after a successful `Resize`, for rank 2 and rank 3 alike, all three buffers have
rank 1 and `dense_dim()` returns 0, whatever the ranks of the buffers were before. -/
theorem Resize_flattens (h : Header) (self : SparseCsrTensor) (dense_dims : DDim) (n : Int)
    (hok : (SparseCsrTensor.Resize h self dense_dims n).thrown = none) :
    (SparseCsrTensor.Resize h self dense_dims n).self.non_zero_crows_.dims.length = 1 ∧
      (SparseCsrTensor.Resize h self dense_dims n).self.non_zero_cols_.dims.length = 1 ∧
      (SparseCsrTensor.Resize h self dense_dims n).self.non_zero_elements_.dims.length = 1 ∧
      SparseCsrTensor.dense_dim (SparseCsrTensor.Resize h self dense_dims n).self = 0 := by
  have hs := Resize_success h self dense_dims n hok
  rw [Resize_ok h self dense_dims n hs.1 hs.2]
  refine ⟨rfl, rfl, rfl, ?_⟩
  rw [dense_dim_of_ranks]
  exact (by decide : wrap_int32 ((1 : Int) - 1) = 0)

/-- Witness for C20: the container of 2 x 2 blocks has two dense dimensions before and none
after `Resize([2,4,4], 6)`. -/
theorem Resize_flattens_witness :
    SparseCsrTensor.dense_dim csr_blocks = 2 ∧
      (SparseCsrTensor.Resize sparse_csr_tensor_h csr_blocks
        [2, 4, 4] 6).self.non_zero_elements_.dims.length = 1 ∧
      SparseCsrTensor.dense_dim
        (SparseCsrTensor.Resize sparse_csr_tensor_h csr_blocks [2, 4, 4] 6).self = 0 :=
  ⟨by decide,
    (Resize_flattens sparse_csr_tensor_h csr_blocks [2, 4, 4] 6 rfl).2.2.1,
    (Resize_flattens sparse_csr_tensor_h csr_blocks [2, 4, 4] 6 rfl).2.2.2⟩

end phi
